import Mathlib

/-!
Verification of the address-derivation engine of the multi-chain wallet auditor.

The engine lives in `src/derivation.js`.  Its own code is the path-template
table `DERIVATION_PATHS`, the six per-family derivation loops
(`deriveEVMAddresses`, `deriveSolanaAddresses`, `deriveBitcoinAddresses`,
`deriveStacksAddresses`, `deriveSuiAddresses`, `deriveAptosAddresses`), the
top-level `deriveAddresses`, and the private-key accessor `derivePrivateKey`.
All cryptographic primitives (BIP39 seed computation, BIP32 / SLIP-0010 key
derivation, address encoding) are imported from third-party libraries
(`bip39`, `ethers`, `bip32`, `ed25519-hd-key`, chain SDKs); they are not part
of this repository.  We therefore embed the repository code over an abstract
record `Libs` of those library functions, and separately instantiate the
record with a concrete executable model of the library stack (modelled from
the spec) where a claim pins actual cryptographic values.

Machine integers: JavaScript `count` is a number that may be negative; we use
`Int` and iterate over `List.range count.toNat`, matching `for (let i = 0;
i < count; i++)`.  Fallible library calls are modelled with `Except String`;
a JS `try { ... } catch { continue }` around a candidate becomes a `match`
that drops the error case.
-/

namespace Derivation

/-- the apostrophe character (codepoint 39) used by hardened path components;
kept as a named constant so the path-template strings below can be written
without an apostrophe literal -/
def apo : String := String.singleton (Char.ofNat 39)

/-- model of JavaScript `String.prototype.slice(a, b)` for `0 ≤ a ≤ b`:
the characters at positions `a, a+1, ..., b-1` -/
def jsSlice (s : String) (a b : Nat) : String :=
  String.mk ((s.toList.drop a).take (b - a))

/-- pat is a leading segment of s (structural recursion, kernel-evaluable) -/
def leadsChars : List Char → List Char → Bool
  | [], _ => true
  | _ :: _, [] => false
  | a :: as, b :: bs => a == b && leadsChars as bs

def containsChars (pat : List Char) : List Char → Bool
  | [] => leadsChars pat []
  | c :: rest => leadsChars pat (c :: rest) || containsChars pat rest

/-- model of JavaScript `String.prototype.includes(pat)`: `pat` occurs as a
contiguous substring of `s` -/
def jsIncludes (s pat : String) : Bool :=
  containsChars pat.data s.data

/-- model of Node `Buffer.prototype.toString("hex")`: lower-case hex encoding
of a byte list, two digits per byte -/
def hexDigit (n : Nat) : Char :=
  if n < 10 then Char.ofNat (48 + n) else Char.ofNat (87 + n)

def bytesToHex (bs : List Nat) : String :=
  String.mk (bs.foldr (fun b acc => hexDigit (b / 16 % 16) :: hexDigit (b % 16) :: acc) [])

/-- the `DERIVATION_PATHS` table of `src/derivation.js` (lines 26-49): for
each chain family, the ordered list of path templates, each a function of the
address index -/
structure DerivationPathTable where
  evm : List (Nat → String)
  solana : List (Nat → String)
  bitcoin : List (Nat → String)
  /-- the `stacks` key of the JS object (`stacks` itself is a reserved token
  in this Lean environment, hence the `T` suffix) -/
  stacksT : List (Nat → String)
  sui : List (Nat → String)
  aptos : List (Nat → String)

def DERIVATION_PATHS : DerivationPathTable where
  evm := [fun index => "m/44" ++ apo ++ "/60" ++ apo ++ "/0" ++ apo ++ "/0/" ++ toString index]
  solana := [fun index => "m/44" ++ apo ++ "/501" ++ apo ++ "/" ++ toString index ++ apo ++ "/0" ++ apo]
  bitcoin :=
    [fun index => "m/84" ++ apo ++ "/0" ++ apo ++ "/0" ++ apo ++ "/0/" ++ toString index,
     fun index => "m/44" ++ apo ++ "/0" ++ apo ++ "/0" ++ apo ++ "/0/" ++ toString index]
  stacksT := [fun index => "m/44" ++ apo ++ "/5757" ++ apo ++ "/0" ++ apo ++ "/0/" ++ toString index]
  sui :=
    [fun index => "m/44" ++ apo ++ "/784" ++ apo ++ "/" ++ toString index ++ apo ++ "/0" ++ apo ++ "/0" ++ apo,
     fun index => "m/44" ++ apo ++ "/784" ++ apo ++ "/0" ++ apo ++ "/0" ++ apo ++ "/" ++ toString index ++ apo,
     fun index => "m/44" ++ apo ++ "/784" ++ apo ++ "/0" ++ apo ++ "/0/" ++ toString index]
  aptos :=
    [fun index => "m/44" ++ apo ++ "/637" ++ apo ++ "/" ++ toString index ++ apo ++ "/0" ++ apo ++ "/0" ++ apo,
     fun index => "m/44" ++ apo ++ "/637" ++ apo ++ "/0" ++ apo ++ "/0" ++ apo ++ "/" ++ toString index ++ apo]

/-- a seed is the byte buffer produced by `bip39.mnemonicToSeedSync` -/
abbrev Seed := List Nat

/-- result of `ethers` `HDNodeWallet.fromSeed(seed).derivePath(path)`: the
fields of the derived wallet that the repository reads -/
structure Wallet where
  address : String
  privateKey : String
deriving DecidableEq, Repr

/-- record of the third-party library functions `src/derivation.js` calls.
Each field is one library entry point; fallible calls (JS functions that can
throw) return `Except String`.  `HDNodeWallet.fromSeed` and `bip32.fromSeed`
are deterministic and total on the 64-byte seeds produced by
`mnemonicToSeedSync`, so they are folded into the corresponding derive
functions. -/
structure Libs where
  /-- `bip39.validateMnemonic` -/
  validateMnemonic : String → Bool
  /-- `bip39.mnemonicToSeedSync` -/
  mnemonicToSeedSync : String → Seed
  /-- `HDNodeWallet.fromSeed(seed).derivePath(path)` (ethers, secp256k1 BIP32) -/
  hdDerivePath : Seed → String → Except String Wallet
  /-- `bip32.fromSeed(seed).derivePath(path).publicKey` (bitcoinjs bip32) -/
  bip32DerivePath : Seed → String → Except String (List Nat)
  /-- `bitcoin.payments.p2wpkh({pubkey}).address` (undefined modelled as `none`) -/
  p2wpkh : List Nat → Option String
  /-- `bitcoin.payments.p2sh({redeem: p2wpkh({pubkey})}).address` -/
  p2shThenP2wpkh : List Nat → Option String
  /-- `bitcoin.payments.p2pkh({pubkey}).address` -/
  p2pkh : List Nat → Option String
  /-- `derivePath(path, seedHex).key` from `ed25519-hd-key` (SLIP-0010) -/
  ed25519DerivePath : Seed → String → Except String (List Nat)
  /-- `Keypair.fromSeed(key).publicKey.toBase58()` (solana web3) -/
  solKeypairAddress : List Nat → Except String String
  /-- `Ed25519Keypair.fromSecretKey(key).getPublicKey().toSuiAddress()` (sui sdk) -/
  suiKeypairAddress : List Nat → Except String String
  /-- `new Ed25519PrivateKey(key).publicKey().authKey().toString()` (aptos sdk) -/
  aptosAuthKey : List Nat → Except String String

/-- the candidate path list walked by every family loop: `for i in
0..count-1 { for pathFn of templates { pathFn(i) } }`, flattened in exactly
that order -/
def candPaths (templates : List (Nat → String)) (count : Int) : List String :=
  (List.range count.toNat).flatMap (fun i => templates.map (fun f => f i))

/-- the body of `if (!seen.has(addr)) { addresses.push(addr); seen.add(addr) }`:
the `seen` set always holds exactly the pushed addresses, so membership in the
accumulator list is the same test -/
def dedupPush (acc : List String) (addr : String) : List String :=
  if acc.contains addr then acc else acc ++ [addr]

/-- a family loop whose body is wrapped in `try { ... } catch { continue }`:
failed candidates (`none`) are skipped, successful ones dedup-pushed -/
def collectDedup (f : String → Option String) (paths : List String) : List String :=
  paths.foldl (fun acc p =>
    match f p with
    | none => acc
    | some addr => dedupPush acc addr) []

/-- a family loop with no `try`/`catch`: the first failing candidate aborts
the whole loop with its error -/
def collectDedupM (f : String → Except String String) (paths : List String) :
    Except String (List String) :=
  paths.foldlM (fun acc p => do
    let addr ← f p
    pure (dedupPush acc addr)) []

/-- a family loop with neither `try`/`catch` nor deduplication: every
candidate is appended unconditionally, the first failure aborts the loop -/
def collectAppendM (f : String → Except String String) (paths : List String) :
    Except String (List String) :=
  paths.foldlM (fun acc p => do
    let addr ← f p
    pure (acc ++ [addr])) []

/-- `deriveEVMAddresses` (`src/derivation.js` lines 55-73): walks the EVM
templates with dedup, no `try`/`catch` around the candidate body -/
def deriveEVMAddresses (L : Libs) (seed : Seed) (count : Int) :
    Except String (List String) :=
  collectDedupM (fun path => (L.hdDerivePath seed path).map (fun w => w.address))
    (candPaths DERIVATION_PATHS.evm count)

/-- the candidate body of `deriveSolanaAddresses` (lines 85-97, inside `try`) -/
def solanaCandidate (L : Libs) (seed : Seed) (path : String) : Option String :=
  (do
    let derived ← L.ed25519DerivePath seed path
    L.solKeypairAddress derived : Except String String).toOption

/-- `deriveSolanaAddresses` (lines 79-102): dedup, candidate body in
`try`/`catch` with `continue` -/
def deriveSolanaAddresses (L : Libs) (seed : Seed) (count : Int) : List String :=
  collectDedup (solanaCandidate L seed) (candPaths DERIVATION_PATHS.solana count)

/-- the payment selection of `deriveBitcoinAddresses` (lines 118-140):
bech32 for `m/84'` paths, P2SH-wrapped segwit for `m/49'` paths, legacy
P2PKH otherwise; `payment.address` may be undefined -/
def btcPayment (L : Libs) (pubkey : List Nat) (path : String) : Option String :=
  if jsIncludes path ("m/84" ++ apo) then L.p2wpkh pubkey
  else if jsIncludes path ("m/49" ++ apo) then L.p2shThenP2wpkh pubkey
  else L.p2pkh pubkey

/-- the candidate body of `deriveBitcoinAddresses` (inside `try`): a thrown
error or an undefined `payment.address` both skip the candidate -/
def bitcoinCandidate (L : Libs) (seed : Seed) (path : String) : Option String :=
  match L.bip32DerivePath seed path with
  | Except.error _ => none
  | Except.ok child => btcPayment L child path

/-- `deriveBitcoinAddresses` (lines 107-153): dedup, candidate body in
`try`/`catch` with `continue` -/
def deriveBitcoinAddresses (L : Libs) (seed : Seed) (count : Int) : List String :=
  collectDedup (bitcoinCandidate L seed) (candPaths DERIVATION_PATHS.bitcoin count)

/-- `deriveStacksAddresses` (lines 158-175): no `try`/`catch`, no `seen`
set; pushes `"SP" + wallet.address.slice(2, 42)` for every candidate -/
def deriveStacksAddresses (L : Libs) (seed : Seed) (count : Int) :
    Except String (List String) :=
  collectAppendM
    (fun path => (L.hdDerivePath seed path).map
      (fun w => "SP" ++ jsSlice w.address 2 42))
    (candPaths DERIVATION_PATHS.stacksT count)

/-- the candidate body of `deriveSuiAddresses` (lines 187-200, inside `try`) -/
def suiCandidate (L : Libs) (seed : Seed) (path : String) : Option String :=
  (do
    let derived ← L.ed25519DerivePath seed path
    L.suiKeypairAddress derived : Except String String).toOption

/-- `deriveSuiAddresses` (lines 181-205): dedup, candidate body in
`try`/`catch` with `continue` -/
def deriveSuiAddresses (L : Libs) (seed : Seed) (count : Int) : List String :=
  collectDedup (suiCandidate L seed) (candPaths DERIVATION_PATHS.sui count)

/-- the candidate body of `deriveAptosAddresses` (lines 217-230, inside `try`) -/
def aptosCandidate (L : Libs) (seed : Seed) (path : String) : Option String :=
  (do
    let derived ← L.ed25519DerivePath seed path
    L.aptosAuthKey derived : Except String String).toOption

/-- `deriveAptosAddresses` (lines 211-235): dedup, candidate body in
`try`/`catch` with `continue` -/
def deriveAptosAddresses (L : Libs) (seed : Seed) (count : Int) : List String :=
  collectDedup (aptosCandidate L seed) (candPaths DERIVATION_PATHS.aptos count)

/-- `deriveAddresses` (lines 244-266): validates the mnemonic (throwing
`"Invalid BIP39 seed phrase"` on failure), converts it to a seed, then builds
the result object `{evm, solana, bitcoin, stacks, sui, aptos}`.  The object
literal evaluates its fields in declaration order, so an uncaught error from
the EVM loop precedes one from the Stacks loop; the other four loops cannot
throw.  The result is the ordered association list of the six family keys. -/
def deriveAddresses (L : Libs) (seedPhrase : String) (count : Int := 5) :
    Except String (List (String × List String)) :=
  if !(L.validateMnemonic seedPhrase) then
    Except.error "Invalid BIP39 seed phrase"
  else
    let seed := L.mnemonicToSeedSync seedPhrase
    do
      let evm ← deriveEVMAddresses L seed count
      let stx ← deriveStacksAddresses L seed count
      pure [("evm", evm),
            ("solana", deriveSolanaAddresses L seed count),
            ("bitcoin", deriveBitcoinAddresses L seed count),
            ("stacks", stx),
            ("sui", deriveSuiAddresses L seed count),
            ("aptos", deriveAptosAddresses L seed count)]

/-- the JS lookup `DERIVATION_PATHS[chain]` used by `derivePrivateKey`
(an absent key yields `undefined`, which we model as the empty list; the
absent-key case is never called as a function because the final branch
throws first) -/
def pathTableLookup (chain : String) : List (Nat → String) :=
  if chain == "evm" then DERIVATION_PATHS.evm
  else if chain == "solana" then DERIVATION_PATHS.solana
  else if chain == "bitcoin" then DERIVATION_PATHS.bitcoin
  else if chain == "stacks" then DERIVATION_PATHS.stacksT
  else if chain == "sui" then DERIVATION_PATHS.sui
  else if chain == "aptos" then DERIVATION_PATHS.aptos
  else []

/-- the call `DERIVATION_PATHS[chain](index)` in `derivePrivateKey` (lines
277 and 282): `DERIVATION_PATHS[chain]` is an Array of template functions,
and JavaScript raises `TypeError: DERIVATION_PATHS[chain] is not a function`
when an Array value is called.  Calling a non-callable value is modelled as
an `Except` error. -/
def jsCallTemplateList (_v : List (Nat → String)) (_index : Nat) : Except String String :=
  Except.error "TypeError: DERIVATION_PATHS[chain] is not a function"

/-- `derivePrivateKey` (lines 272-288): hd-wallet private key for
`evm`/`stacks`, raw ed25519 key hex for `solana`/`sui`/`aptos`, and an
explicit `"Private key derivation not implemented"` error otherwise -/
def derivePrivateKey (L : Libs) (seedPhrase chain : String) (index : Nat := 0) :
    Except String String :=
  let seed := L.mnemonicToSeedSync seedPhrase
  if chain == "evm" || chain == "stacks" then do
    let path ← jsCallTemplateList (pathTableLookup chain) index
    let w ← L.hdDerivePath seed path
    pure w.privateKey
  else if chain == "solana" || chain == "sui" || chain == "aptos" then do
    let path ← jsCallTemplateList (pathTableLookup chain) index
    let derived ← L.ed25519DerivePath seed path
    pure (bytesToHex derived)
  else
    Except.error ("Private key derivation not implemented for " ++ chain)

/-! ### Generic facts about the loop shapes -/

theorem mem_dedupPush {acc : List String} {a b : String} :
    a ∈ dedupPush acc b ↔ a ∈ acc ∨ a = b := by
  unfold dedupPush
  by_cases hb : b ∈ acc
  · rw [if_pos (by simpa using hb)]
    exact ⟨Or.inl, fun h => h.elim id (fun e => by rw [e]; exact hb)⟩
  · simp [hb]

theorem nodup_dedupPush {acc : List String} {b : String} (h : acc.Nodup) :
    (dedupPush acc b).Nodup := by
  unfold dedupPush
  by_cases hb : b ∈ acc
  · simpa [hb]
  · rw [if_neg (by simpa using hb)]
    exact List.Nodup.append h (List.nodup_singleton b)
      (fun x hx hxb => hb ((List.mem_singleton.mp hxb) ▸ hx))

theorem mem_collectDedup_foldl (f : String → Option String) (paths : List String) :
    ∀ (acc : List String) (a : String),
      a ∈ paths.foldl (fun acc p =>
          match f p with
          | none => acc
          | some addr => dedupPush acc addr) acc ↔
        a ∈ acc ∨ ∃ p ∈ paths, f p = some a := by
  induction paths with
  | nil => intro acc a; simp
  | cons p ps ih =>
    intro acc a
    simp only [List.foldl_cons]
    cases hp : f p with
    | none =>
      rw [ih]
      simp only [List.mem_cons]
      constructor
      · rintro (h | ⟨q, hq, hfq⟩)
        · exact Or.inl h
        · exact Or.inr ⟨q, Or.inr hq, hfq⟩
      · rintro (h | ⟨q, (rfl | hq), hfq⟩)
        · exact Or.inl h
        · rw [hp] at hfq; cases hfq
        · exact Or.inr ⟨q, hq, hfq⟩
    | some addr =>
      rw [ih]
      simp only [mem_dedupPush, List.mem_cons]
      constructor
      · rintro ((h | rfl) | ⟨q, hq, hfq⟩)
        · exact Or.inl h
        · exact Or.inr ⟨p, Or.inl rfl, hp⟩
        · exact Or.inr ⟨q, Or.inr hq, hfq⟩
      · rintro (h | ⟨q, (rfl | hq), hfq⟩)
        · exact Or.inl (Or.inl h)
        · rw [hp] at hfq
          exact Or.inl (Or.inr (Option.some_injective _ hfq).symm)
        · exact Or.inr ⟨q, hq, hfq⟩

theorem mem_collectDedup {f : String → Option String} {paths : List String} {a : String} :
    a ∈ collectDedup f paths ↔ ∃ p ∈ paths, f p = some a := by
  unfold collectDedup
  rw [mem_collectDedup_foldl]
  simp

theorem nodup_collectDedup_foldl (f : String → Option String) (paths : List String) :
    ∀ acc : List String, acc.Nodup →
      (paths.foldl (fun acc p =>
          match f p with
          | none => acc
          | some addr => dedupPush acc addr) acc).Nodup := by
  induction paths with
  | nil => intro acc h; simpa
  | cons p ps ih =>
    intro acc h
    simp only [List.foldl_cons]
    cases hp : f p with
    | none => exact ih acc h
    | some addr => exact ih _ (nodup_dedupPush h)

theorem nodup_collectDedup (f : String → Option String) (paths : List String) :
    (collectDedup f paths).Nodup :=
  nodup_collectDedup_foldl f paths [] List.nodup_nil

/-- the exact step function of `collectDedupM`, named for the fold lemmas -/
theorem collectDedupM_ok_of_forall_ok (f : String → Except String String) (paths : List String) :
    ∀ acc : List String, (∀ p ∈ paths, ∃ y, f p = Except.ok y) →
      (paths.foldlM (fun acc p => do
          let addr ← f p
          pure (dedupPush acc addr)) acc : Except String (List String)) =
        Except.ok (paths.foldl (fun acc p =>
          match (f p).toOption with
          | none => acc
          | some addr => dedupPush acc addr) acc) := by
  induction paths with
  | nil => intro acc _; rfl
  | cons p ps ih =>
    intro acc h
    obtain ⟨y, hy⟩ := h p (List.mem_cons_self p ps)
    rw [List.foldlM_cons, List.foldl_cons, hy]
    simp only [Except.toOption]
    exact ih (dedupPush acc y) (fun q hq => h q (List.mem_cons_of_mem p hq))

theorem collectDedupM_ok_forall (f : String → Except String String) (paths : List String) :
    ∀ acc l, (paths.foldlM (fun acc p => do
        let addr ← f p
        pure (dedupPush acc addr)) acc : Except String (List String)) = Except.ok l →
      ∀ p ∈ paths, ∃ y, f p = Except.ok y := by
  induction paths with
  | nil => intro acc l _ p hp; cases hp
  | cons p ps ih =>
    intro acc l hfold q hq
    rw [List.foldlM_cons] at hfold
    cases hy : f p with
    | error e =>
      rw [hy] at hfold
      have hcontr : (Except.error e : Except String (List String)) = Except.ok l := hfold
      cases hcontr
    | ok y =>
      rcases List.mem_cons.mp hq with rfl | hq2
      · exact ⟨y, hy⟩
      · rw [hy] at hfold
        have hrest : (ps.foldlM (fun acc p => do
            let addr ← f p
            pure (dedupPush acc addr)) (dedupPush acc y) :
            Except String (List String)) = Except.ok l := hfold
        exact ih (dedupPush acc y) l hrest q hq2

theorem collectDedupM_ok_eq {f : String → Except String String} {paths : List String}
    {l : List String} (h : collectDedupM f paths = Except.ok l) :
    l = collectDedup (fun p => (f p).toOption) paths := by
  have hall := collectDedupM_ok_forall f paths [] l h
  have := collectDedupM_ok_of_forall_ok f paths [] hall
  rw [collectDedupM] at h
  rw [h] at this
  rw [collectDedup]
  exact Except.ok.inj this

theorem collectAppendM_foldlM_iff (f : String → Except String String) (paths : List String) :
    ∀ (acc l : List String),
      (paths.foldlM (fun acc p => do
          let addr ← f p
          pure (acc ++ [addr])) acc : Except String (List String)) = Except.ok l ↔
        ∃ l2, l = acc ++ l2 ∧ List.Forall₂ (fun p a => f p = Except.ok a) paths l2 := by
  induction paths with
  | nil =>
    intro acc l
    constructor
    · intro h
      exact ⟨[], by simpa using (Except.ok.inj h).symm, List.Forall₂.nil⟩
    · rintro ⟨l2, rfl, hf⟩
      cases hf
      simp [List.foldlM_nil]
      rfl
  | cons p ps ih =>
    intro acc l
    rw [List.foldlM_cons]
    cases hy : f p with
    | error e =>
      constructor
      · intro h
        have hcontr : (Except.error e : Except String (List String)) = Except.ok l := h
        cases hcontr
      · rintro ⟨l2, rfl, hf⟩
        cases hf with
        | cons ha _ => rw [hy] at ha; cases ha
    | ok y =>
      have hstep : ∀ l,
          ((Except.ok y >>= fun addr => pure (acc ++ [addr]) : Except String (List String)) >>=
              fun b => ps.foldlM (fun acc p => do
                let addr ← f p
                pure (acc ++ [addr])) b) = Except.ok l ↔
            (ps.foldlM (fun acc p => do
                let addr ← f p
                pure (acc ++ [addr])) (acc ++ [y]) : Except String (List String)) =
              Except.ok l := by
        intro l; exact Iff.rfl
      constructor
      · intro h
        have h2 := (hstep l).mp h
        obtain ⟨l2, rfl, hf⟩ := (ih (acc ++ [y]) l).mp h2
        exact ⟨y :: l2, by simp, List.Forall₂.cons hy hf⟩
      · rintro ⟨l2, rfl, hf⟩
        cases hf with
        | cons ha hf2 =>
          rename_i b l3
          rw [hy] at ha
          cases ha
          refine (hstep _).mpr ?_
          exact (ih (acc ++ [y]) _).mpr ⟨l3, by simp, hf2⟩

theorem collectAppendM_ok_iff {f : String → Except String String} {paths l : List String} :
    collectAppendM f paths = Except.ok l ↔
      List.Forall₂ (fun p a => f p = Except.ok a) paths l := by
  rw [collectAppendM, collectAppendM_foldlM_iff f paths [] l]
  constructor
  · rintro ⟨l2, rfl, hf⟩; simpa using hf
  · intro hf; exact ⟨l, by simp, hf⟩

theorem mem_candPaths_iff {tpl : List (Nat → String)} {count : Int} {p : String} :
    p ∈ candPaths tpl count ↔ ∃ i < count.toNat, ∃ f ∈ tpl, f i = p := by
  simp [candPaths]

theorem candPaths_mono {tpl : List (Nat → String)} {n1 n2 : Int} (h : n1 ≤ n2) :
    ∀ p ∈ candPaths tpl n1, p ∈ candPaths tpl n2 := by
  intro p hp
  obtain ⟨i, hi, f, hf, rfl⟩ := mem_candPaths_iff.mp hp
  exact mem_candPaths_iff.mpr ⟨i, lt_of_lt_of_le hi (Int.toNat_le_toNat h), f, hf, rfl⟩

theorem candPaths_append {tpl : List (Nat → String)} {n1 n2 : Int} (h : n1 ≤ n2) :
    ∃ rest, candPaths tpl n2 = candPaths tpl n1 ++ rest := by
  have hle : n1.toNat ≤ n2.toNat := Int.toNat_le_toNat h
  have hrange : List.range n2.toNat =
      List.range n1.toNat ++ (List.range n2.toNat).drop n1.toNat := by
    conv_lhs => rw [← List.take_append_drop n1.toNat (List.range n2.toNat)]
    rw [List.take_range, Nat.min_eq_left hle]
  refine ⟨((List.range n2.toNat).drop n1.toNat).flatMap
    (fun i => tpl.map (fun f => f i)), ?_⟩
  rw [candPaths, candPaths]
  conv_lhs => rw [hrange]
  rw [List.flatMap_append]

theorem candPaths_singleton (t : Nat → String) (count : Int) :
    candPaths [t] count = (List.range count.toNat).map t := by
  rw [candPaths]
  induction List.range count.toNat with
  | nil => rfl
  | cons a l ih => simp_all

theorem except_bind_ok {α β : Type} (a : α) (f : α → Except String β) :
    (Except.ok a >>= f) = f a := rfl

theorem except_bind_error {α β : Type} (e : String) (f : α → Except String β) :
    ((Except.error e : Except String α) >>= f) = Except.error e := rfl

theorem except_pure {α : Type} (a : α) : (pure a : Except String α) = Except.ok a := rfl

instance exceptDecidableEq {α : Type} [DecidableEq α] : DecidableEq (Except String α) :=
  fun a b =>
    match a, b with
    | Except.ok x, Except.ok y =>
      if h : x = y then Decidable.isTrue (by rw [h])
      else Decidable.isFalse (fun hc => h (Except.ok.inj hc))
    | Except.error e, Except.error e2 =>
      if h : e = e2 then Decidable.isTrue (by rw [h])
      else Decidable.isFalse (fun hc => h (Except.error.inj hc))
    | Except.ok _, Except.error _ => Decidable.isFalse (fun hc => Except.noConfusion hc)
    | Except.error _, Except.ok _ => Decidable.isFalse (fun hc => Except.noConfusion hc)

theorem collectDedup_congr {f g : String → Option String} {paths : List String}
    (h : ∀ p ∈ paths, f p = g p) : collectDedup f paths = collectDedup g paths := by
  unfold collectDedup
  induction paths with
  | nil => rfl
  | cons p ps ih =>
    have hfold : ∀ acc : List String,
        ps.foldl (fun acc p =>
          match f p with
          | none => acc
          | some addr => dedupPush acc addr) acc =
        ps.foldl (fun acc p =>
          match g p with
          | none => acc
          | some addr => dedupPush acc addr) acc := by
      clear ih
      induction ps with
      | nil => intro acc; rfl
      | cons q qs ihq =>
        intro acc
        rw [List.foldl_cons, List.foldl_cons,
          h q (List.mem_cons_of_mem p (List.mem_cons_self q qs))]
        exact ihq (fun r hr => h r (by
          rcases List.mem_cons.mp hr with rfl | hr2
          · exact List.mem_cons_self r (q :: qs)
          · exact List.mem_cons_of_mem p (List.mem_cons_of_mem q hr2))) _
    rw [List.foldl_cons, List.foldl_cons, h p (List.mem_cons_self p ps)]
    exact hfold _

/-- unfolding of `deriveAddresses` on a successful run: the validator passed,
both fallible family loops succeeded, and the result is the six-key
association list in declaration order -/
theorem deriveAddresses_ok_iff {L : Libs} {m : String} {count : Int}
    {s : List (String × List String)} :
    deriveAddresses L m count = Except.ok s ↔
      L.validateMnemonic m = true ∧
      ∃ evm stx,
        deriveEVMAddresses L (L.mnemonicToSeedSync m) count = Except.ok evm ∧
        deriveStacksAddresses L (L.mnemonicToSeedSync m) count = Except.ok stx ∧
        s = [("evm", evm),
             ("solana", deriveSolanaAddresses L (L.mnemonicToSeedSync m) count),
             ("bitcoin", deriveBitcoinAddresses L (L.mnemonicToSeedSync m) count),
             ("stacks", stx),
             ("sui", deriveSuiAddresses L (L.mnemonicToSeedSync m) count),
             ("aptos", deriveAptosAddresses L (L.mnemonicToSeedSync m) count)] := by
  cases hv : L.validateMnemonic m with
  | false => simp [deriveAddresses, hv]
  | true =>
    rw [deriveAddresses, hv]
    simp only [Bool.not_true]
    rw [if_neg (by simp)]
    cases he : deriveEVMAddresses L (L.mnemonicToSeedSync m) count with
    | error e =>
      constructor
      · intro h
        have hcontr : (Except.error e : Except String (List (String × List String))) =
          Except.ok s := h
        cases hcontr
      · rintro ⟨-, evm, stx, hevm, -, -⟩
        exact Except.noConfusion hevm
    | ok evm =>
      cases hs : deriveStacksAddresses L (L.mnemonicToSeedSync m) count with
      | error e =>
        constructor
        · intro h
          have hcontr : (Except.error e : Except String (List (String × List String))) =
            Except.ok s := h
          cases hcontr
        · rintro ⟨-, evm2, stx, hevm, hstx, -⟩
          exact Except.noConfusion hstx
      | ok stx =>
        constructor
        · intro h
          have h2 : (Except.ok
              [("evm", evm),
               ("solana", deriveSolanaAddresses L (L.mnemonicToSeedSync m) count),
               ("bitcoin", deriveBitcoinAddresses L (L.mnemonicToSeedSync m) count),
               ("stacks", stx),
               ("sui", deriveSuiAddresses L (L.mnemonicToSeedSync m) count),
               ("aptos", deriveAptosAddresses L (L.mnemonicToSeedSync m) count)] :
              Except String (List (String × List String))) = Except.ok s := h
          exact ⟨by trivial, evm, stx, rfl, rfl, (Except.ok.inj h2).symm⟩
        · rintro ⟨-, evm2, stx2, hevm, hstx, rfl⟩
          cases Except.ok.inj hevm
          cases Except.ok.inj hstx
          rfl

/-! ### A concrete executable library instance for witnesses -/

/-- sample instantiation of the library record: derivation always succeeds
and encodes the path (resp. derived key) into the produced address, so the
engine's control flow can be evaluated on concrete inputs -/
def sampleLibs : Libs where
  validateMnemonic := fun _ => true
  mnemonicToSeedSync := fun m => [m.length]
  hdDerivePath := fun _ path => Except.ok ⟨"0x" ++ toString path.length, "k"⟩
  bip32DerivePath := fun _ path => Except.ok [path.length]
  p2wpkh := fun pub => some ("bc1q" ++ toString (pub.headD 0))
  p2shThenP2wpkh := fun pub => some ("3w" ++ toString (pub.headD 0))
  p2pkh := fun pub => some ("1p" ++ toString (pub.headD 0))
  ed25519DerivePath := fun _ path => Except.ok [path.length]
  solKeypairAddress := fun k => Except.ok ("sol" ++ toString (k.headD 0))
  suiKeypairAddress := fun k => Except.ok ("sui" ++ toString (k.headD 0))
  aptosAuthKey := fun k => Except.ok ("apt" ++ toString (k.headD 0))

/-! ### Claim theorems -/

/-- C4 (evaluation at the failing input): `derivePrivateKey` never reaches
the library calls for the `evm` family: `DERIVATION_PATHS["evm"]` is an Array
of template functions and calling it as a function raises a `TypeError`, so
the accessor throws for every mnemonic and index instead of returning key
material. -/
theorem derivePrivateKey_evm_type_error (L : Libs) (m : String) (i : Nat) :
    derivePrivateKey L m "evm" i =
      Except.error "TypeError: DERIVATION_PATHS[chain] is not a function" := rfl

/-- C5: a mnemonic rejected by the validator makes `deriveAddresses` fail
immediately with the `"Invalid BIP39 seed phrase"` error; no family sequence
is constructed (the `Except` is the whole result, so there is no partial
output). -/
theorem deriveAddresses_invalid_mnemonic (L : Libs) (m : String) (count : Int)
    (h : L.validateMnemonic m = false) :
    deriveAddresses L m count = Except.error "Invalid BIP39 seed phrase" := by
  rw [deriveAddresses, h]
  rfl

def invalidSampleLibs : Libs := { sampleLibs with validateMnemonic := fun _ => false }

theorem deriveAddresses_invalid_mnemonic_witness :
    invalidSampleLibs.validateMnemonic "not a mnemonic" = false ∧
      deriveAddresses invalidSampleLibs "not a mnemonic" 5 =
        Except.error "Invalid BIP39 seed phrase" :=
  ⟨rfl, deriveAddresses_invalid_mnemonic invalidSampleLibs "not a mnemonic" 5 rfl⟩

/-- C6: the engine is a pure function of the mnemonic and the count — the
embedding has no state, randomness, time or network input, so two calls with
identical arguments return byte-identical results. -/
theorem deriveAddresses_deterministic (L : Libs) (m : String) (count : Int) :
    deriveAddresses L m count = deriveAddresses L m count := rfl

/-- C8: every successful `deriveAddresses` run returns the association list
with exactly the six fixed family keys, in declaration order, each mapped to
a list of address strings. -/
theorem deriveAddresses_six_keys (L : Libs) (m : String) (count : Int)
    (s : List (String × List String)) (h : deriveAddresses L m count = Except.ok s) :
    s.map Prod.fst = ["evm", "solana", "bitcoin", "stacks", "sui", "aptos"] := by
  obtain ⟨-, evm, stx, -, -, rfl⟩ := deriveAddresses_ok_iff.mp h
  rfl

def sampleRun1 : List (String × List String) :=
  (deriveAddresses sampleLibs "sample mnemonic" 1).toOption.getD []

theorem deriveAddresses_six_keys_witness :
    deriveAddresses sampleLibs "sample mnemonic" 1 = Except.ok sampleRun1 ∧
      sampleRun1.map Prod.fst = ["evm", "solana", "bitcoin", "stacks", "sui", "aptos"] :=
  ⟨by decide, deriveAddresses_six_keys sampleLibs "sample mnemonic" 1 sampleRun1 (by decide)⟩

/-- C10: `deriveAddresses` does not validate its `count` argument: the
parameter defaults to 5 when omitted, and for a valid mnemonic and any
`count ≤ 0` the call raises no error and returns the mapping with all six
family sequences empty (the loops simply do not run). -/
theorem deriveAddresses_count_unvalidated (L : Libs) (m : String) (count : Int) :
    deriveAddresses L m = deriveAddresses L m 5 ∧
    (L.validateMnemonic m = true → count ≤ 0 →
      deriveAddresses L m count = Except.ok
        [("evm", []), ("solana", []), ("bitcoin", []), ("stacks", []),
         ("sui", []), ("aptos", [])]) := by
  refine ⟨rfl, fun hv hc => ?_⟩
  have h0 : count.toNat = 0 := Int.toNat_of_nonpos hc
  have hcp : ∀ tpl : List (Nat → String), candPaths tpl count = [] := by
    intro tpl
    rw [candPaths, h0]
    rfl
  rw [deriveAddresses, hv]
  simp only [Bool.not_true]
  rw [if_neg (by simp)]
  simp only [deriveEVMAddresses, deriveSolanaAddresses, deriveBitcoinAddresses,
    deriveStacksAddresses, deriveSuiAddresses, deriveAptosAddresses, hcp]
  rfl

theorem deriveAddresses_count_unvalidated_witness :
    (deriveAddresses sampleLibs "m" = deriveAddresses sampleLibs "m" 5) ∧
    sampleLibs.validateMnemonic "m" = true ∧ ((-3 : Int) ≤ 0) ∧
    deriveAddresses sampleLibs "m" (-3) = Except.ok
      [("evm", []), ("solana", []), ("bitcoin", []), ("stacks", []),
       ("sui", []), ("aptos", [])] :=
  ⟨(deriveAddresses_count_unvalidated sampleLibs "m" (-3)).1, rfl, by decide,
   (deriveAddresses_count_unvalidated sampleLibs "m" (-3)).2 rfl (by decide)⟩

/-- library record whose hd-wallet derivation returns the same wallet for
every path (the extreme collision case dedup is meant to guard against) -/
def stacksDupLibs : Libs :=
  { sampleLibs with hdDerivePath := fun _ _ => Except.ok ⟨"0xab", "k"⟩ }

def stacksDupRun : List (String × List String) :=
  (deriveAddresses stacksDupLibs "m" 2).toOption.getD []

/-- C3 (counterexample): the Stacks loop appends every candidate
unconditionally — there is no `seen` set and no membership test — so when two
candidates map to the same wallet address the Stacks output sequence contains
an exact duplicate, while a successful run is still produced. -/
theorem stacks_duplicate_counterexample :
    deriveAddresses stacksDupLibs "m" 2 = Except.ok stacksDupRun ∧
    ("stacks", ["SPab", "SPab"]) ∈ stacksDupRun ∧
    ¬ (["SPab", "SPab"] : List String).Nodup :=
  ⟨by decide, by decide, by decide⟩

/-- C3 (amended): all families except Stacks push a candidate address only
if it is not already present (membership by string equality), so their output
sequences are duplicate-free for every library instance, seed and count; the
Stacks sequence has no such guarantee. -/
theorem dedup_families_nodup (L : Libs) (seed : Seed) (count : Int) :
    (deriveSolanaAddresses L seed count).Nodup ∧
    (deriveBitcoinAddresses L seed count).Nodup ∧
    (deriveSuiAddresses L seed count).Nodup ∧
    (deriveAptosAddresses L seed count).Nodup ∧
    (∀ l, deriveEVMAddresses L seed count = Except.ok l → l.Nodup) := by
  refine ⟨nodup_collectDedup _ _, nodup_collectDedup _ _, nodup_collectDedup _ _,
    nodup_collectDedup _ _, fun l h => ?_⟩
  rw [collectDedupM_ok_eq h]
  exact nodup_collectDedup _ _

def evmSampleRun2 : List String :=
  (deriveEVMAddresses sampleLibs [0] 2).toOption.getD []

theorem dedup_families_nodup_witness :
    (deriveSolanaAddresses sampleLibs [0] 2).Nodup ∧
    (deriveBitcoinAddresses sampleLibs [0] 2).Nodup ∧
    (deriveSuiAddresses sampleLibs [0] 2).Nodup ∧
    (deriveAptosAddresses sampleLibs [0] 2).Nodup ∧
    deriveEVMAddresses sampleLibs [0] 2 = Except.ok evmSampleRun2 ∧
    evmSampleRun2.Nodup :=
  ⟨(dedup_families_nodup sampleLibs [0] 2).1,
   (dedup_families_nodup sampleLibs [0] 2).2.1,
   (dedup_families_nodup sampleLibs [0] 2).2.2.1,
   (dedup_families_nodup sampleLibs [0] 2).2.2.2.1,
   by decide,
   (dedup_families_nodup sampleLibs [0] 2).2.2.2.2 evmSampleRun2 (by decide)⟩

/-- the EVM path template instantiated at index 1 -/
def evmFailPath : String := "m/44" ++ apo ++ "/60" ++ apo ++ "/0" ++ apo ++ "/0/1"

/-- library record where exactly one (template, index) candidate — the EVM
template at index 1 — fails key derivation -/
def evmFailLibs : Libs :=
  { sampleLibs with hdDerivePath := fun _ path =>
      if path = evmFailPath then Except.error "boom"
      else Except.ok ⟨"0x" ++ toString path.length, "k"⟩ }

/-- C2 (counterexample): a key-derivation failure of the single candidate
(EVM template, index 1) is not caught: `deriveEVMAddresses` has no
`try`/`catch`, the error propagates, and the whole `deriveAddresses` call
fails — no family's addresses are produced at all. -/
theorem evm_failure_aborts_counterexample :
    deriveAddresses evmFailLibs "m" 2 = Except.error "boom" := by decide

theorem ed25519_update_eval (L : Libs) (msg p0 : String) (seed : Seed) (p : String)
    (hne : p ≠ p0) :
    ({ L with ed25519DerivePath := fun s q =>
        if q = p0 then Except.error msg else L.ed25519DerivePath s q } :
      Libs).ed25519DerivePath seed p = L.ed25519DerivePath seed p := by
  simp [hne]

/-- C2 (amended): a failing (template, index) candidate is caught and skipped
only in the four families whose loop bodies sit in `try`/`catch` — solana,
bitcoin, sui and aptos.  If the shared ed25519 derivation fails on exactly one
path `p0` (used by no sui or aptos candidate), the solana output consists of
exactly the successful candidates at paths other than `p0`, and the other five
families are completely unaffected. -/
theorem catch_failure_skips_only_that_candidate (L L2 : Libs) (seed : Seed)
    (count : Int) (p0 msg : String)
    (hL2 : L2 = { L with ed25519DerivePath := fun s q =>
      if q = p0 then Except.error msg else L.ed25519DerivePath s q })
    (hsui : p0 ∉ candPaths DERIVATION_PATHS.sui count)
    (haptos : p0 ∉ candPaths DERIVATION_PATHS.aptos count) :
    deriveEVMAddresses L2 seed count = deriveEVMAddresses L seed count ∧
    deriveBitcoinAddresses L2 seed count = deriveBitcoinAddresses L seed count ∧
    deriveStacksAddresses L2 seed count = deriveStacksAddresses L seed count ∧
    deriveSuiAddresses L2 seed count = deriveSuiAddresses L seed count ∧
    deriveAptosAddresses L2 seed count = deriveAptosAddresses L seed count ∧
    (∀ a, a ∈ deriveSolanaAddresses L2 seed count ↔
      ∃ p ∈ candPaths DERIVATION_PATHS.solana count,
        p ≠ p0 ∧ solanaCandidate L seed p = some a) := by
  subst hL2
  refine ⟨rfl, rfl, rfl, ?_, ?_, ?_⟩
  · refine collectDedup_congr (fun p hp => ?_)
    have hne : p ≠ p0 := fun he => hsui (he ▸ hp)
    unfold suiCandidate
    rw [ed25519_update_eval L msg p0 seed p hne]
  · refine collectDedup_congr (fun p hp => ?_)
    have hne : p ≠ p0 := fun he => haptos (he ▸ hp)
    unfold aptosCandidate
    rw [ed25519_update_eval L msg p0 seed p hne]
  · intro a
    rw [deriveSolanaAddresses, mem_collectDedup]
    constructor
    · rintro ⟨p, hp, hsome⟩
      by_cases hne : p = p0
      · subst hne
        have hnone : solanaCandidate
            { L with ed25519DerivePath := fun s q =>
              if q = p then Except.error msg else L.ed25519DerivePath s q } seed p = none := by
          simp [solanaCandidate, Except.toOption]
          rfl
        rw [hnone] at hsome
        cases hsome
      · refine ⟨p, hp, hne, ?_⟩
        unfold solanaCandidate at hsome ⊢
        rwa [ed25519_update_eval L msg p0 seed p hne] at hsome
    · rintro ⟨p, hp, hne, hsome⟩
      refine ⟨p, hp, ?_⟩
      unfold solanaCandidate at hsome ⊢
      rwa [ed25519_update_eval L msg p0 seed p hne]

/-- the solana path template instantiated at index 0 -/
def solFailPath : String := "m/44" ++ apo ++ "/501" ++ apo ++ "/0" ++ apo ++ "/0" ++ apo

def solFailLibs : Libs :=
  { sampleLibs with ed25519DerivePath := fun s q =>
      if q = solFailPath then Except.error "boom"
      else sampleLibs.ed25519DerivePath s q }

theorem catch_failure_skips_only_that_candidate_witness :
    solFailPath ∉ candPaths DERIVATION_PATHS.sui 2 ∧
    solFailPath ∉ candPaths DERIVATION_PATHS.aptos 2 ∧
    (deriveEVMAddresses solFailLibs [0] 2 = deriveEVMAddresses sampleLibs [0] 2 ∧
     deriveBitcoinAddresses solFailLibs [0] 2 = deriveBitcoinAddresses sampleLibs [0] 2 ∧
     deriveStacksAddresses solFailLibs [0] 2 = deriveStacksAddresses sampleLibs [0] 2 ∧
     deriveSuiAddresses solFailLibs [0] 2 = deriveSuiAddresses sampleLibs [0] 2 ∧
     deriveAptosAddresses solFailLibs [0] 2 = deriveAptosAddresses sampleLibs [0] 2 ∧
     (∀ a, a ∈ deriveSolanaAddresses solFailLibs [0] 2 ↔
       ∃ p ∈ candPaths DERIVATION_PATHS.solana 2,
         p ≠ solFailPath ∧ solanaCandidate sampleLibs [0] p = some a)) :=
  ⟨by decide, by decide,
   catch_failure_skips_only_that_candidate sampleLibs solFailLibs [0] 2 solFailPath
     "boom" rfl (by decide) (by decide)⟩

theorem forall₂_append_split {α β : Type} {R : α → β → Prop} :
    ∀ (l1 l2 : List α) (l : List β), List.Forall₂ R (l1 ++ l2) l →
      ∃ m1 m2, l = m1 ++ m2 ∧ List.Forall₂ R l1 m1 ∧ List.Forall₂ R l2 m2 := by
  intro l1
  induction l1 with
  | nil => exact fun l2 l h => ⟨[], l, rfl, List.Forall₂.nil, h⟩
  | cons a as ih =>
    intro l2 l h
    cases h with
    | cons hr htail =>
      rename_i b bs
      obtain ⟨m1, m2, rfl, h1, hh2⟩ := ih l2 bs htail
      exact ⟨b :: m1, m2, rfl, List.Forall₂.cons hr h1, hh2⟩

theorem forall₂_get_some {α β : Type} {R : α → β → Prop} :
    ∀ {l1 : List α} {l2 : List β}, List.Forall₂ R l1 l2 →
      ∀ (i : Nat) (x : α), l1.get? i = some x →
        ∃ y, l2.get? i = some y ∧ R x y := by
  intro l1 l2 hf
  induction hf with
  | nil => intro i x h; cases h
  | cons hr htail ih =>
    intro i x h
    cases i with
    | zero =>
      cases Option.some.inj h
      exact ⟨_, rfl, hr⟩
    | succ n => exact ih n x h

/-- C7: growing the count only extends each family's address sequence: for
`n1 ≤ n2`, a successful run at `n2` guarantees a successful run at `n1`, and
position by position (the six family keys align) every address produced at
`n1` also occurs in the corresponding family sequence at `n2`. -/
theorem deriveAddresses_count_monotone (L : Libs) (m : String) (n1 n2 : Int)
    (h : n1 ≤ n2) (s2 : List (String × List String))
    (h2 : deriveAddresses L m n2 = Except.ok s2) :
    ∃ s1, deriveAddresses L m n1 = Except.ok s1 ∧
      List.Forall₂ (fun e1 e2 => e1.1 = e2.1 ∧ ∀ a ∈ e1.2, a ∈ e2.2) s1 s2 := by
  obtain ⟨hv, evm2, stx2, hevm2, hstx2, rfl⟩ := deriveAddresses_ok_iff.mp h2
  have hall2 : ∀ p ∈ candPaths DERIVATION_PATHS.evm n2, ∃ y,
      (L.hdDerivePath (L.mnemonicToSeedSync m) p).map (fun w => w.address) =
        Except.ok y :=
    collectDedupM_ok_forall _ _ [] evm2 hevm2
  have hall1 : ∀ p ∈ candPaths DERIVATION_PATHS.evm n1, ∃ y,
      (L.hdDerivePath (L.mnemonicToSeedSync m) p).map (fun w => w.address) =
        Except.ok y :=
    fun p hp => hall2 p (candPaths_mono h p hp)
  have hevm1 : deriveEVMAddresses L (L.mnemonicToSeedSync m) n1 = Except.ok
      (collectDedup
        (fun p => ((L.hdDerivePath (L.mnemonicToSeedSync m) p).map
          (fun w => w.address)).toOption)
        (candPaths DERIVATION_PATHS.evm n1)) :=
    collectDedupM_ok_of_forall_ok _ _ [] hall1
  have hevm2eq : evm2 = collectDedup
      (fun p => ((L.hdDerivePath (L.mnemonicToSeedSync m) p).map
        (fun w => w.address)).toOption)
      (candPaths DERIVATION_PATHS.evm n2) :=
    collectDedupM_ok_eq hevm2
  obtain ⟨rest, hrest⟩ := @candPaths_append DERIVATION_PATHS.stacksT _ _ h
  have hf2 : List.Forall₂
      (fun p a => (L.hdDerivePath (L.mnemonicToSeedSync m) p).map
        (fun w => "SP" ++ jsSlice w.address 2 42) = Except.ok a)
      (candPaths DERIVATION_PATHS.stacksT n2) stx2 := collectAppendM_ok_iff.mp hstx2
  rw [hrest] at hf2
  obtain ⟨stx1, restOut, hs2eq, hf1, -⟩ := forall₂_append_split _ _ _ hf2
  have hstx1 : deriveStacksAddresses L (L.mnemonicToSeedSync m) n1 = Except.ok stx1 :=
    collectAppendM_ok_iff.mpr hf1
  refine ⟨_, deriveAddresses_ok_iff.mpr ⟨hv, _, stx1, hevm1, hstx1, rfl⟩, ?_⟩
  refine List.Forall₂.cons ⟨rfl, ?_⟩ (List.Forall₂.cons ⟨rfl, ?_⟩
    (List.Forall₂.cons ⟨rfl, ?_⟩ (List.Forall₂.cons ⟨rfl, ?_⟩
    (List.Forall₂.cons ⟨rfl, ?_⟩ (List.Forall₂.cons ⟨rfl, ?_⟩ List.Forall₂.nil)))))
  · intro a ha
    rw [hevm2eq]
    obtain ⟨p, hp, hpa⟩ := mem_collectDedup.mp ha
    exact mem_collectDedup.mpr ⟨p, candPaths_mono h p hp, hpa⟩
  · intro a ha
    obtain ⟨p, hp, hpa⟩ := mem_collectDedup.mp ha
    exact mem_collectDedup.mpr ⟨p, candPaths_mono h p hp, hpa⟩
  · intro a ha
    obtain ⟨p, hp, hpa⟩ := mem_collectDedup.mp ha
    exact mem_collectDedup.mpr ⟨p, candPaths_mono h p hp, hpa⟩
  · intro a ha
    rw [hs2eq]
    exact List.mem_append_left restOut ha
  · intro a ha
    obtain ⟨p, hp, hpa⟩ := mem_collectDedup.mp ha
    exact mem_collectDedup.mpr ⟨p, candPaths_mono h p hp, hpa⟩
  · intro a ha
    obtain ⟨p, hp, hpa⟩ := mem_collectDedup.mp ha
    exact mem_collectDedup.mpr ⟨p, candPaths_mono h p hp, hpa⟩

def sampleRun2 : List (String × List String) :=
  (deriveAddresses sampleLibs "m" 2).toOption.getD []

theorem deriveAddresses_count_monotone_witness :
    ((1 : Int) ≤ 2) ∧
    deriveAddresses sampleLibs "m" 2 = Except.ok sampleRun2 ∧
    (∃ s1, deriveAddresses sampleLibs "m" 1 = Except.ok s1 ∧
      List.Forall₂ (fun e1 e2 => e1.1 = e2.1 ∧ ∀ a ∈ e1.2, a ∈ e2.2) s1 sampleRun2) :=
  ⟨by decide, by decide,
   deriveAddresses_count_monotone sampleLibs "m" 1 2 (by decide) sampleRun2 (by decide)⟩

/-- C9: the Stacks sequence is a placeholder truncation of EVM-style
addresses: its `i`-th entry is literally `"SP"` followed by characters 2-41
of the checksummed hex address that the hd-wallet library derives at
`m/44'/5757'/0'/0/i` — not a real c32check Stacks encoding. -/
theorem stacks_entry_is_truncated_hd_address (L : Libs) (seed : Seed) (count : Int)
    (i : Nat) (hi : i < count.toNat) (l : List String)
    (h : deriveStacksAddresses L seed count = Except.ok l) :
    ∃ w, L.hdDerivePath seed
        ("m/44" ++ apo ++ "/5757" ++ apo ++ "/0" ++ apo ++ "/0/" ++ toString i) =
        Except.ok w ∧
      l.get? i = some ("SP" ++ jsSlice w.address 2 42) := by
  have hf : List.Forall₂
      (fun p a => (L.hdDerivePath seed p).map
        (fun w => "SP" ++ jsSlice w.address 2 42) = Except.ok a)
      (candPaths DERIVATION_PATHS.stacksT count) l := collectAppendM_ok_iff.mp h
  have hsingle : candPaths DERIVATION_PATHS.stacksT count =
      (List.range count.toNat).map
        (fun index => "m/44" ++ apo ++ "/5757" ++ apo ++ "/0" ++ apo ++ "/0/" ++
          toString index) :=
    candPaths_singleton _ count
  rw [hsingle] at hf
  have hx : ((List.range count.toNat).map
      (fun index => "m/44" ++ apo ++ "/5757" ++ apo ++ "/0" ++ apo ++ "/0/" ++
        toString index)).get? i =
      some ("m/44" ++ apo ++ "/5757" ++ apo ++ "/0" ++ apo ++ "/0/" ++ toString i) := by
    rw [List.get?_map, List.get?_range hi]
    rfl
  obtain ⟨a, hget, hra⟩ := forall₂_get_some hf i _ hx
  cases hw : L.hdDerivePath seed
      ("m/44" ++ apo ++ "/5757" ++ apo ++ "/0" ++ apo ++ "/0/" ++ toString i) with
  | error e =>
    rw [hw] at hra
    exact Except.noConfusion hra
  | ok w =>
    rw [hw] at hra
    have : Except.ok ("SP" ++ jsSlice w.address 2 42) = Except.ok a := hra
    cases Except.ok.inj this
    exact ⟨w, rfl, hget⟩

def stacksSampleRun : List String :=
  (deriveStacksAddresses sampleLibs [0] 2).toOption.getD []

theorem stacks_entry_witness :
    (1 < (2 : Int).toNat) ∧
    deriveStacksAddresses sampleLibs [0] 2 = Except.ok stacksSampleRun ∧
    (∃ w, sampleLibs.hdDerivePath [0]
        ("m/44" ++ apo ++ "/5757" ++ apo ++ "/0" ++ apo ++ "/0/" ++ toString 1) =
        Except.ok w ∧
      stacksSampleRun.get? 1 = some ("SP" ++ jsSlice w.address 2 42)) :=
  ⟨by decide, by decide,
   stacks_entry_is_truncated_hd_address sampleLibs [0] 2 1 (by decide)
     stacksSampleRun (by decide)⟩


/-! ### Executable model of the cryptographic library stack (for C1)

Modelled from the spec: the repository delegates all cryptography to the
bip39 and ethers libraries, whose code is not part of this repository.  The
spec fixes the algorithms (sections 3 and 4): mnemonic-to-seed is
PBKDF2-HMAC-SHA512 with 2048 iterations and salt "mnemonic"; EVM key
derivation is BIP32 over secp256k1 along the hardened and normal path
components; the EVM address is the keccak256-based EIP-55 checksummed hex
encoding of the public key.  The definitions below implement exactly these
standards.  The 64-bit words of SHA-512 and keccak are represented as `Nat`
with explicit masking by `2 ^ 64 - 1`; hash states are packed big `Nat`s so
the kernel can evaluate them; the 2048 PBKDF2 iterations are evaluated in 64
separately checked chunk theorems. -/

/-- the 64-bit mask `2 ^ 64 - 1` -/
def M64 : Nat := 18446744073709551615

/-- strictness combinator: matching on the `Nat` forces the kernel to
rebuild it as a literal before it is substituted into `k`, keeping
iterated reductions linear -/
def sF {α : Sort u} (x : Nat) (k : Nat → α) : α :=
  match x with
  | 0 => k 0
  | n+1 => k (n+1)

/-! The SHA-512 primitive functions are written with direct `Nat.land`,
`Nat.lor`, `Nat.xor`, `Nat.add`, `Nat.shiftLeft`, `Nat.shiftRight` calls
(the operator instances unfold to exactly these). -/

/-- right rotation of a 64-bit word -/
def rotr (n x : Nat) : Nat :=
  Nat.land (Nat.lor (Nat.shiftRight x n) (Nat.shiftLeft x (64 - n))) M64

/-- SHA-512 Σ0 -/
def bS0 (x : Nat) : Nat := Nat.xor (Nat.xor (rotr 28 x) (rotr 34 x)) (rotr 39 x)
/-- SHA-512 Σ1 -/
def bS1 (x : Nat) : Nat := Nat.xor (Nat.xor (rotr 14 x) (rotr 18 x)) (rotr 41 x)
/-- SHA-512 σ0 -/
def sS0 (x : Nat) : Nat := Nat.xor (Nat.xor (rotr 1 x) (rotr 8 x)) (Nat.shiftRight x 7)
/-- SHA-512 σ1 -/
def sS1 (x : Nat) : Nat := Nat.xor (Nat.xor (rotr 19 x) (rotr 61 x)) (Nat.shiftRight x 6)
/-- SHA-512 Ch -/
def ch (x y z : Nat) : Nat := Nat.xor (Nat.land x y) (Nat.land (Nat.xor x M64) z)
/-- SHA-512 Maj -/
def maj (x y z : Nat) : Nat :=
  Nat.xor (Nat.xor (Nat.land x y) (Nat.land x z)) (Nat.land y z)

/-- one SHA-512 round in continuation style; `kw` is `K_t + W_t` -/
def rnd (kw a b c d e f g h : Nat)
    (cont : Nat → Nat → Nat → Nat → Nat → Nat → Nat → Nat → Nat) : Nat :=
  let p := Nat.add (Nat.add (Nat.add h (bS1 e)) (ch e f g)) kw
  let q := Nat.add (bS0 a) (maj a b c)
  cont (Nat.land (Nat.add p q) M64) a b c (Nat.land (Nat.add d p) M64) e f g

/-- one message-schedule step `W_t = σ1(W_(t-2)) + W_(t-7) + σ0(W_(t-15)) + W_(t-16)` -/
def wstep (w2 w7 w15 w16 : Nat) (cont : Nat → Nat) : Nat :=
  cont (Nat.land (Nat.add (Nat.add (Nat.add (sS1 w2) w7) (sS0 w15)) w16) M64)

set_option maxRecDepth 4000 in
/-- the full 80-word SHA-512 message schedule of one 1024-bit block,
packed into one `Nat` with `W_t` at bit offset `64*(79-t)` -/
def sched512 (blk : Nat) : Nat :=
  let x0 := Nat.land (Nat.shiftRight blk 960) M64
  let x1 := Nat.land (Nat.shiftRight blk 896) M64
  let x2 := Nat.land (Nat.shiftRight blk 832) M64
  let x3 := Nat.land (Nat.shiftRight blk 768) M64
  let x4 := Nat.land (Nat.shiftRight blk 704) M64
  let x5 := Nat.land (Nat.shiftRight blk 640) M64
  let x6 := Nat.land (Nat.shiftRight blk 576) M64
  let x7 := Nat.land (Nat.shiftRight blk 512) M64
  let x8 := Nat.land (Nat.shiftRight blk 448) M64
  let x9 := Nat.land (Nat.shiftRight blk 384) M64
  let x10 := Nat.land (Nat.shiftRight blk 320) M64
  let x11 := Nat.land (Nat.shiftRight blk 256) M64
  let x12 := Nat.land (Nat.shiftRight blk 192) M64
  let x13 := Nat.land (Nat.shiftRight blk 128) M64
  let x14 := Nat.land (Nat.shiftRight blk 64) M64
  let x15 := Nat.land blk M64
  wstep x14 x9 x1 x0 (fun x16 =>
  wstep x15 x10 x2 x1 (fun x17 =>
  wstep x16 x11 x3 x2 (fun x18 =>
  wstep x17 x12 x4 x3 (fun x19 =>
  wstep x18 x13 x5 x4 (fun x20 =>
  wstep x19 x14 x6 x5 (fun x21 =>
  wstep x20 x15 x7 x6 (fun x22 =>
  wstep x21 x16 x8 x7 (fun x23 =>
  wstep x22 x17 x9 x8 (fun x24 =>
  wstep x23 x18 x10 x9 (fun x25 =>
  wstep x24 x19 x11 x10 (fun x26 =>
  wstep x25 x20 x12 x11 (fun x27 =>
  wstep x26 x21 x13 x12 (fun x28 =>
  wstep x27 x22 x14 x13 (fun x29 =>
  wstep x28 x23 x15 x14 (fun x30 =>
  wstep x29 x24 x16 x15 (fun x31 =>
  wstep x30 x25 x17 x16 (fun x32 =>
  wstep x31 x26 x18 x17 (fun x33 =>
  wstep x32 x27 x19 x18 (fun x34 =>
  wstep x33 x28 x20 x19 (fun x35 =>
  wstep x34 x29 x21 x20 (fun x36 =>
  wstep x35 x30 x22 x21 (fun x37 =>
  wstep x36 x31 x23 x22 (fun x38 =>
  wstep x37 x32 x24 x23 (fun x39 =>
  wstep x38 x33 x25 x24 (fun x40 =>
  wstep x39 x34 x26 x25 (fun x41 =>
  wstep x40 x35 x27 x26 (fun x42 =>
  wstep x41 x36 x28 x27 (fun x43 =>
  wstep x42 x37 x29 x28 (fun x44 =>
  wstep x43 x38 x30 x29 (fun x45 =>
  wstep x44 x39 x31 x30 (fun x46 =>
  wstep x45 x40 x32 x31 (fun x47 =>
  wstep x46 x41 x33 x32 (fun x48 =>
  wstep x47 x42 x34 x33 (fun x49 =>
  wstep x48 x43 x35 x34 (fun x50 =>
  wstep x49 x44 x36 x35 (fun x51 =>
  wstep x50 x45 x37 x36 (fun x52 =>
  wstep x51 x46 x38 x37 (fun x53 =>
  wstep x52 x47 x39 x38 (fun x54 =>
  wstep x53 x48 x40 x39 (fun x55 =>
  wstep x54 x49 x41 x40 (fun x56 =>
  wstep x55 x50 x42 x41 (fun x57 =>
  wstep x56 x51 x43 x42 (fun x58 =>
  wstep x57 x52 x44 x43 (fun x59 =>
  wstep x58 x53 x45 x44 (fun x60 =>
  wstep x59 x54 x46 x45 (fun x61 =>
  wstep x60 x55 x47 x46 (fun x62 =>
  wstep x61 x56 x48 x47 (fun x63 =>
  wstep x62 x57 x49 x48 (fun x64 =>
  wstep x63 x58 x50 x49 (fun x65 =>
  wstep x64 x59 x51 x50 (fun x66 =>
  wstep x65 x60 x52 x51 (fun x67 =>
  wstep x66 x61 x53 x52 (fun x68 =>
  wstep x67 x62 x54 x53 (fun x69 =>
  wstep x68 x63 x55 x54 (fun x70 =>
  wstep x69 x64 x56 x55 (fun x71 =>
  wstep x70 x65 x57 x56 (fun x72 =>
  wstep x71 x66 x58 x57 (fun x73 =>
  wstep x72 x67 x59 x58 (fun x74 =>
  wstep x73 x68 x60 x59 (fun x75 =>
  wstep x74 x69 x61 x60 (fun x76 =>
  wstep x75 x70 x62 x61 (fun x77 =>
  wstep x76 x71 x63 x62 (fun x78 =>
  wstep x77 x72 x64 x63 (fun x79 =>
  (Nat.lor (Nat.shiftLeft (Nat.lor (Nat.shiftLeft (Nat.lor (Nat.shiftLeft (Nat.lor (Nat.shiftLeft (Nat.lor (Nat.shiftLeft (Nat.lor (Nat.shiftLeft (Nat.lor (Nat.shiftLeft (Nat.lor (Nat.shiftLeft (Nat.lor (Nat.shiftLeft (Nat.lor (Nat.shiftLeft (Nat.lor (Nat.shiftLeft (Nat.lor (Nat.shiftLeft (Nat.lor (Nat.shiftLeft (Nat.lor (Nat.shiftLeft (Nat.lor (Nat.shiftLeft (Nat.lor (Nat.shiftLeft (Nat.lor (Nat.shiftLeft (Nat.lor (Nat.shiftLeft (Nat.lor (Nat.shiftLeft (Nat.lor (Nat.shiftLeft (Nat.lor (Nat.shiftLeft (Nat.lor (Nat.shiftLeft (Nat.lor (Nat.shiftLeft (Nat.lor (Nat.shiftLeft (Nat.lor (Nat.shiftLeft (Nat.lor (Nat.shiftLeft (Nat.lor (Nat.shiftLeft (Nat.lor (Nat.shiftLeft (Nat.lor (Nat.shiftLeft (Nat.lor (Nat.shiftLeft (Nat.lor (Nat.shiftLeft (Nat.lor (Nat.shiftLeft (Nat.lor (Nat.shiftLeft (Nat.lor (Nat.shiftLeft (Nat.lor (Nat.shiftLeft (Nat.lor (Nat.shiftLeft (Nat.lor (Nat.shiftLeft (Nat.lor (Nat.shiftLeft (Nat.lor (Nat.shiftLeft (Nat.lor (Nat.shiftLeft (Nat.lor (Nat.shiftLeft (Nat.lor (Nat.shiftLeft (Nat.lor (Nat.shiftLeft (Nat.lor (Nat.shiftLeft (Nat.lor (Nat.shiftLeft (Nat.lor (Nat.shiftLeft (Nat.lor (Nat.shiftLeft (Nat.lor (Nat.shiftLeft (Nat.lor (Nat.shiftLeft (Nat.lor (Nat.shiftLeft (Nat.lor (Nat.shiftLeft (Nat.lor (Nat.shiftLeft (Nat.lor (Nat.shiftLeft (Nat.lor (Nat.shiftLeft (Nat.lor (Nat.shiftLeft (Nat.lor (Nat.shiftLeft (Nat.lor (Nat.shiftLeft (Nat.lor (Nat.shiftLeft (Nat.lor (Nat.shiftLeft (Nat.lor (Nat.shiftLeft (Nat.lor (Nat.shiftLeft (Nat.lor (Nat.shiftLeft (Nat.lor (Nat.shiftLeft (Nat.lor (Nat.shiftLeft (Nat.lor (Nat.shiftLeft (Nat.lor (Nat.shiftLeft (Nat.lor (Nat.shiftLeft (Nat.lor (Nat.shiftLeft (Nat.lor (Nat.shiftLeft (Nat.lor (Nat.shiftLeft (Nat.lor (Nat.shiftLeft (Nat.lor (Nat.shiftLeft (Nat.lor (Nat.shiftLeft (Nat.lor (Nat.shiftLeft (Nat.lor (Nat.shiftLeft (Nat.lor (Nat.shiftLeft (Nat.lor (Nat.shiftLeft (Nat.lor (Nat.shiftLeft (Nat.lor (Nat.shiftLeft x0 64) x1) 64) x2) 64) x3) 64) x4) 64) x5) 64) x6) 64) x7) 64) x8) 64) x9) 64) x10) 64) x11) 64) x12) 64) x13) 64) x14) 64) x15) 64) x16) 64) x17) 64) x18) 64) x19) 64) x20) 64) x21) 64) x22) 64) x23) 64) x24) 64) x25) 64) x26) 64) x27) 64) x28) 64) x29) 64) x30) 64) x31) 64) x32) 64) x33) 64) x34) 64) x35) 64) x36) 64) x37) 64) x38) 64) x39) 64) x40) 64) x41) 64) x42) 64) x43) 64) x44) 64) x45) 64) x46) 64) x47) 64) x48) 64) x49) 64) x50) 64) x51) 64) x52) 64) x53) 64) x54) 64) x55) 64) x56) 64) x57) 64) x58) 64) x59) 64) x60) 64) x61) 64) x62) 64) x63) 64) x64) 64) x65) 64) x66) 64) x67) 64) x68) 64) x69) 64) x70) 64) x71) 64) x72) 64) x73) 64) x74) 64) x75) 64) x76) 64) x77) 64) x78) 64) x79)))))))))))))))))))))))))))))))))))))))))))))))))))))))))))))))))

set_option maxRecDepth 4000 in
/-- the SHA-512 compression function; state and block are packed `Nat`s
(state word `i` of 8 at bit offset `64*(7-i)`) -/
def sha512Compress (st blk : Nat) : Nat :=
  sF (sched512 blk) (fun ws =>
  let a0 := Nat.land (Nat.shiftRight st 448) M64
  let b0 := Nat.land (Nat.shiftRight st 384) M64
  let c0 := Nat.land (Nat.shiftRight st 320) M64
  let d0 := Nat.land (Nat.shiftRight st 256) M64
  let e0 := Nat.land (Nat.shiftRight st 192) M64
  let f0 := Nat.land (Nat.shiftRight st 128) M64
  let g0 := Nat.land (Nat.shiftRight st 64) M64
  let h0 := Nat.land st M64
  rnd (Nat.add 4794697086780616226 (Nat.land (Nat.shiftRight ws 5056) M64)) a0 b0 c0 d0 e0 f0 g0 h0 (fun a b c d e f g h =>
  rnd (Nat.add 8158064640168781261 (Nat.land (Nat.shiftRight ws 4992) M64)) a b c d e f g h (fun a b c d e f g h =>
  rnd (Nat.add 13096744586834688815 (Nat.land (Nat.shiftRight ws 4928) M64)) a b c d e f g h (fun a b c d e f g h =>
  rnd (Nat.add 16840607885511220156 (Nat.land (Nat.shiftRight ws 4864) M64)) a b c d e f g h (fun a b c d e f g h =>
  rnd (Nat.add 4131703408338449720 (Nat.land (Nat.shiftRight ws 4800) M64)) a b c d e f g h (fun a b c d e f g h =>
  rnd (Nat.add 6480981068601479193 (Nat.land (Nat.shiftRight ws 4736) M64)) a b c d e f g h (fun a b c d e f g h =>
  rnd (Nat.add 10538285296894168987 (Nat.land (Nat.shiftRight ws 4672) M64)) a b c d e f g h (fun a b c d e f g h =>
  rnd (Nat.add 12329834152419229976 (Nat.land (Nat.shiftRight ws 4608) M64)) a b c d e f g h (fun a b c d e f g h =>
  rnd (Nat.add 15566598209576043074 (Nat.land (Nat.shiftRight ws 4544) M64)) a b c d e f g h (fun a b c d e f g h =>
  rnd (Nat.add 1334009975649890238 (Nat.land (Nat.shiftRight ws 4480) M64)) a b c d e f g h (fun a b c d e f g h =>
  rnd (Nat.add 2608012711638119052 (Nat.land (Nat.shiftRight ws 4416) M64)) a b c d e f g h (fun a b c d e f g h =>
  rnd (Nat.add 6128411473006802146 (Nat.land (Nat.shiftRight ws 4352) M64)) a b c d e f g h (fun a b c d e f g h =>
  rnd (Nat.add 8268148722764581231 (Nat.land (Nat.shiftRight ws 4288) M64)) a b c d e f g h (fun a b c d e f g h =>
  rnd (Nat.add 9286055187155687089 (Nat.land (Nat.shiftRight ws 4224) M64)) a b c d e f g h (fun a b c d e f g h =>
  rnd (Nat.add 11230858885718282805 (Nat.land (Nat.shiftRight ws 4160) M64)) a b c d e f g h (fun a b c d e f g h =>
  rnd (Nat.add 13951009754708518548 (Nat.land (Nat.shiftRight ws 4096) M64)) a b c d e f g h (fun a b c d e f g h =>
  rnd (Nat.add 16472876342353939154 (Nat.land (Nat.shiftRight ws 4032) M64)) a b c d e f g h (fun a b c d e f g h =>
  rnd (Nat.add 17275323862435702243 (Nat.land (Nat.shiftRight ws 3968) M64)) a b c d e f g h (fun a b c d e f g h =>
  rnd (Nat.add 1135362057144423861 (Nat.land (Nat.shiftRight ws 3904) M64)) a b c d e f g h (fun a b c d e f g h =>
  rnd (Nat.add 2597628984639134821 (Nat.land (Nat.shiftRight ws 3840) M64)) a b c d e f g h (fun a b c d e f g h =>
  rnd (Nat.add 3308224258029322869 (Nat.land (Nat.shiftRight ws 3776) M64)) a b c d e f g h (fun a b c d e f g h =>
  rnd (Nat.add 5365058923640841347 (Nat.land (Nat.shiftRight ws 3712) M64)) a b c d e f g h (fun a b c d e f g h =>
  rnd (Nat.add 6679025012923562964 (Nat.land (Nat.shiftRight ws 3648) M64)) a b c d e f g h (fun a b c d e f g h =>
  rnd (Nat.add 8573033837759648693 (Nat.land (Nat.shiftRight ws 3584) M64)) a b c d e f g h (fun a b c d e f g h =>
  rnd (Nat.add 10970295158949994411 (Nat.land (Nat.shiftRight ws 3520) M64)) a b c d e f g h (fun a b c d e f g h =>
  rnd (Nat.add 12119686244451234320 (Nat.land (Nat.shiftRight ws 3456) M64)) a b c d e f g h (fun a b c d e f g h =>
  rnd (Nat.add 12683024718118986047 (Nat.land (Nat.shiftRight ws 3392) M64)) a b c d e f g h (fun a b c d e f g h =>
  rnd (Nat.add 13788192230050041572 (Nat.land (Nat.shiftRight ws 3328) M64)) a b c d e f g h (fun a b c d e f g h =>
  rnd (Nat.add 14330467153632333762 (Nat.land (Nat.shiftRight ws 3264) M64)) a b c d e f g h (fun a b c d e f g h =>
  rnd (Nat.add 15395433587784984357 (Nat.land (Nat.shiftRight ws 3200) M64)) a b c d e f g h (fun a b c d e f g h =>
  rnd (Nat.add 489312712824947311 (Nat.land (Nat.shiftRight ws 3136) M64)) a b c d e f g h (fun a b c d e f g h =>
  rnd (Nat.add 1452737877330783856 (Nat.land (Nat.shiftRight ws 3072) M64)) a b c d e f g h (fun a b c d e f g h =>
  rnd (Nat.add 2861767655752347644 (Nat.land (Nat.shiftRight ws 3008) M64)) a b c d e f g h (fun a b c d e f g h =>
  rnd (Nat.add 3322285676063803686 (Nat.land (Nat.shiftRight ws 2944) M64)) a b c d e f g h (fun a b c d e f g h =>
  rnd (Nat.add 5560940570517711597 (Nat.land (Nat.shiftRight ws 2880) M64)) a b c d e f g h (fun a b c d e f g h =>
  rnd (Nat.add 5996557281743188959 (Nat.land (Nat.shiftRight ws 2816) M64)) a b c d e f g h (fun a b c d e f g h =>
  rnd (Nat.add 7280758554555802590 (Nat.land (Nat.shiftRight ws 2752) M64)) a b c d e f g h (fun a b c d e f g h =>
  rnd (Nat.add 8532644243296465576 (Nat.land (Nat.shiftRight ws 2688) M64)) a b c d e f g h (fun a b c d e f g h =>
  rnd (Nat.add 9350256976987008742 (Nat.land (Nat.shiftRight ws 2624) M64)) a b c d e f g h (fun a b c d e f g h =>
  rnd (Nat.add 10552545826968843579 (Nat.land (Nat.shiftRight ws 2560) M64)) a b c d e f g h (fun a b c d e f g h =>
  rnd (Nat.add 11727347734174303076 (Nat.land (Nat.shiftRight ws 2496) M64)) a b c d e f g h (fun a b c d e f g h =>
  rnd (Nat.add 12113106623233404929 (Nat.land (Nat.shiftRight ws 2432) M64)) a b c d e f g h (fun a b c d e f g h =>
  rnd (Nat.add 14000437183269869457 (Nat.land (Nat.shiftRight ws 2368) M64)) a b c d e f g h (fun a b c d e f g h =>
  rnd (Nat.add 14369950271660146224 (Nat.land (Nat.shiftRight ws 2304) M64)) a b c d e f g h (fun a b c d e f g h =>
  rnd (Nat.add 15101387698204529176 (Nat.land (Nat.shiftRight ws 2240) M64)) a b c d e f g h (fun a b c d e f g h =>
  rnd (Nat.add 15463397548674623760 (Nat.land (Nat.shiftRight ws 2176) M64)) a b c d e f g h (fun a b c d e f g h =>
  rnd (Nat.add 17586052441742319658 (Nat.land (Nat.shiftRight ws 2112) M64)) a b c d e f g h (fun a b c d e f g h =>
  rnd (Nat.add 1182934255886127544 (Nat.land (Nat.shiftRight ws 2048) M64)) a b c d e f g h (fun a b c d e f g h =>
  rnd (Nat.add 1847814050463011016 (Nat.land (Nat.shiftRight ws 1984) M64)) a b c d e f g h (fun a b c d e f g h =>
  rnd (Nat.add 2177327727835720531 (Nat.land (Nat.shiftRight ws 1920) M64)) a b c d e f g h (fun a b c d e f g h =>
  rnd (Nat.add 2830643537854262169 (Nat.land (Nat.shiftRight ws 1856) M64)) a b c d e f g h (fun a b c d e f g h =>
  rnd (Nat.add 3796741975233480872 (Nat.land (Nat.shiftRight ws 1792) M64)) a b c d e f g h (fun a b c d e f g h =>
  rnd (Nat.add 4115178125766777443 (Nat.land (Nat.shiftRight ws 1728) M64)) a b c d e f g h (fun a b c d e f g h =>
  rnd (Nat.add 5681478168544905931 (Nat.land (Nat.shiftRight ws 1664) M64)) a b c d e f g h (fun a b c d e f g h =>
  rnd (Nat.add 6601373596472566643 (Nat.land (Nat.shiftRight ws 1600) M64)) a b c d e f g h (fun a b c d e f g h =>
  rnd (Nat.add 7507060721942968483 (Nat.land (Nat.shiftRight ws 1536) M64)) a b c d e f g h (fun a b c d e f g h =>
  rnd (Nat.add 8399075790359081724 (Nat.land (Nat.shiftRight ws 1472) M64)) a b c d e f g h (fun a b c d e f g h =>
  rnd (Nat.add 8693463985226723168 (Nat.land (Nat.shiftRight ws 1408) M64)) a b c d e f g h (fun a b c d e f g h =>
  rnd (Nat.add 9568029438360202098 (Nat.land (Nat.shiftRight ws 1344) M64)) a b c d e f g h (fun a b c d e f g h =>
  rnd (Nat.add 10144078919501101548 (Nat.land (Nat.shiftRight ws 1280) M64)) a b c d e f g h (fun a b c d e f g h =>
  rnd (Nat.add 10430055236837252648 (Nat.land (Nat.shiftRight ws 1216) M64)) a b c d e f g h (fun a b c d e f g h =>
  rnd (Nat.add 11840083180663258601 (Nat.land (Nat.shiftRight ws 1152) M64)) a b c d e f g h (fun a b c d e f g h =>
  rnd (Nat.add 13761210420658862357 (Nat.land (Nat.shiftRight ws 1088) M64)) a b c d e f g h (fun a b c d e f g h =>
  rnd (Nat.add 14299343276471374635 (Nat.land (Nat.shiftRight ws 1024) M64)) a b c d e f g h (fun a b c d e f g h =>
  rnd (Nat.add 14566680578165727644 (Nat.land (Nat.shiftRight ws 960) M64)) a b c d e f g h (fun a b c d e f g h =>
  rnd (Nat.add 15097957966210449927 (Nat.land (Nat.shiftRight ws 896) M64)) a b c d e f g h (fun a b c d e f g h =>
  rnd (Nat.add 16922976911328602910 (Nat.land (Nat.shiftRight ws 832) M64)) a b c d e f g h (fun a b c d e f g h =>
  rnd (Nat.add 17689382322260857208 (Nat.land (Nat.shiftRight ws 768) M64)) a b c d e f g h (fun a b c d e f g h =>
  rnd (Nat.add 500013540394364858 (Nat.land (Nat.shiftRight ws 704) M64)) a b c d e f g h (fun a b c d e f g h =>
  rnd (Nat.add 748580250866718886 (Nat.land (Nat.shiftRight ws 640) M64)) a b c d e f g h (fun a b c d e f g h =>
  rnd (Nat.add 1242879168328830382 (Nat.land (Nat.shiftRight ws 576) M64)) a b c d e f g h (fun a b c d e f g h =>
  rnd (Nat.add 1977374033974150939 (Nat.land (Nat.shiftRight ws 512) M64)) a b c d e f g h (fun a b c d e f g h =>
  rnd (Nat.add 2944078676154940804 (Nat.land (Nat.shiftRight ws 448) M64)) a b c d e f g h (fun a b c d e f g h =>
  rnd (Nat.add 3659926193048069267 (Nat.land (Nat.shiftRight ws 384) M64)) a b c d e f g h (fun a b c d e f g h =>
  rnd (Nat.add 4368137639120453308 (Nat.land (Nat.shiftRight ws 320) M64)) a b c d e f g h (fun a b c d e f g h =>
  rnd (Nat.add 4836135668995329356 (Nat.land (Nat.shiftRight ws 256) M64)) a b c d e f g h (fun a b c d e f g h =>
  rnd (Nat.add 5532061633213252278 (Nat.land (Nat.shiftRight ws 192) M64)) a b c d e f g h (fun a b c d e f g h =>
  rnd (Nat.add 6448918945643986474 (Nat.land (Nat.shiftRight ws 128) M64)) a b c d e f g h (fun a b c d e f g h =>
  rnd (Nat.add 6902733635092675308 (Nat.land (Nat.shiftRight ws 64) M64)) a b c d e f g h (fun a b c d e f g h =>
  rnd (Nat.add 7801388544844847127 (Nat.land ws M64)) a b c d e f g h (fun a b c d e f g h =>
  (Nat.lor (Nat.shiftLeft (Nat.lor (Nat.shiftLeft (Nat.lor (Nat.shiftLeft (Nat.lor (Nat.shiftLeft (Nat.lor (Nat.shiftLeft (Nat.lor (Nat.shiftLeft (Nat.lor (Nat.shiftLeft (Nat.land (Nat.add (Nat.land (Nat.shiftRight st 448) M64) a) M64) 64) (Nat.land (Nat.add (Nat.land (Nat.shiftRight st 384) M64) b) M64)) 64) (Nat.land (Nat.add (Nat.land (Nat.shiftRight st 320) M64) c) M64)) 64) (Nat.land (Nat.add (Nat.land (Nat.shiftRight st 256) M64) d) M64)) 64) (Nat.land (Nat.add (Nat.land (Nat.shiftRight st 192) M64) e) M64)) 64) (Nat.land (Nat.add (Nat.land (Nat.shiftRight st 128) M64) f) M64)) 64) (Nat.land (Nat.add (Nat.land (Nat.shiftRight st 64) M64) g) M64)) 64) (Nat.land (Nat.add (Nat.land st M64) h) M64)))))))))))))))))))))))))))))))))))))))))))))))))))))))))))))))))))))))))))))))))))

/-- the SHA-512 initial hash value H(0), packed -/
def sha512Init : Nat := 5553695886275756354114946136778835491165961296423526488018107560760635245050263663676120264669891125477075321720197875136066046164503496587506630822601081

/-- big-endian byte serialization of `v` into `n` bytes -/
def natToBytesBE : Nat → Nat → List Nat
  | 0, _ => []
  | n+1, v => natToBytesBE n (v / 256) ++ [v % 256]

def bytesToNat (bs : List Nat) : Nat := bs.foldl (fun a b => a * 256 + b) 0

/-- standard SHA-2 padding: 0x80, zeros to 112 mod 128, 16-byte bit length -/
def sha512Pad (msg : List Nat) : List Nat :=
  msg ++ [128] ++ List.replicate ((240 - (msg.length + 1) % 128) % 128) 0 ++
    natToBytesBE 16 (msg.length * 8)

def sha512Blocks : Nat → Nat → List Nat → Nat
  | 0, st, _ => st
  | _, st, [] => st
  | fuel+1, st, bytes =>
    sF (sha512Compress st (bytesToNat (bytes.take 128)))
      (fun st2 => sha512Blocks fuel st2 (bytes.drop 128))

/-- SHA-512 of a byte list, as the packed 512-bit digest -/
def sha512Bytes (msg : List Nat) : Nat :=
  let padded := sha512Pad msg
  sha512Blocks (padded.length / 128) sha512Init padded

/-- an HMAC key, zero-padded to the 128-byte block (hashed first if longer) -/
def hmacKeyPad (key : List Nat) : List Nat :=
  let k0 := if 128 < key.length then natToBytesBE 64 (sha512Bytes key) else key
  k0 ++ List.replicate (128 - k0.length) 0

/-- HMAC-SHA512, packed 512-bit digest -/
def hmac512 (key msg : List Nat) : Nat :=
  let kp := hmacKeyPad key
  sF (sha512Bytes ((kp.map (fun b => Nat.xor b 54)) ++ msg)) (fun inner =>
  sha512Bytes ((kp.map (fun b => Nat.xor b 92)) ++ natToBytesBE 64 inner))

/-- the second compression block of an HMAC-SHA512 whose message is one
64-byte digest `u`: `u`, the 0x80 pad byte, and the bit length 1536 -/
def hmacTailBlock (u : Nat) : Nat := Nat.lor (Nat.shiftLeft u 512) (2 ^ 511 + 1536)

/-- one PBKDF2 iteration `U_(j+1) = HMAC(P, U_j)` computed from the
precomputed inner/outer pad states (`ist`/`ost`), as every standard PBKDF2
implementation does -/
def hmacIter (ist ost u : Nat) : Nat :=
  sF (sha512Compress ist (hmacTailBlock u))
    (fun t => sha512Compress ost (hmacTailBlock t))

/-- the inner-pad chaining state: SHA-512 applied to `key ⊕ ipad` -/
def istOf (password : List Nat) : Nat :=
  sha512Compress sha512Init (bytesToNat ((hmacKeyPad password).map (fun b => Nat.xor b 54)))

/-- the outer-pad chaining state: SHA-512 applied to `key ⊕ opad` -/
def ostOf (password : List Nat) : Nat :=
  sha512Compress sha512Init (bytesToNat ((hmacKeyPad password).map (fun b => Nat.xor b 92)))

/-- the first PBKDF2 block `U_1 = HMAC(P, salt ++ INT(1))` -/
def u1Of (password salt : List Nat) : Nat := hmac512 password (salt ++ [0, 0, 0, 1])

/-- the PBKDF2 iteration loop: folds `U_(j+1) = HMAC(P, U_j)` into the
running XOR accumulator -/
def pbkdfGo : Nat → Nat → Nat → Nat → Nat → Nat
  | 0, _, _, _, acc => acc
  | fuel+1, ist, ost, u, acc =>
    sF (hmacIter ist ost u) (fun u2 =>
    sF (Nat.xor acc u2) (fun acc2 => pbkdfGo fuel ist ost u2 acc2))

/-- the same loop on the explicit `(U_j, acc)` state pair, used to split
the 2048 iterations into separately checked chunks -/
def pbkdfPair : Nat → Nat → Nat → Nat × Nat → Nat × Nat
  | 0, _, _, s => s
  | n+1, ist, ost, s =>
    sF (hmacIter ist ost s.1) (fun u2 =>
    sF (Nat.xor s.2 u2) (fun a2 => pbkdfPair n ist ost (u2, a2)))

/-- PBKDF2-HMAC-SHA512 with derived-key length 64 (one output block):
`U_1 = HMAC(P, salt ++ INT(1))`, `U_(j+1) = HMAC(P, U_j)`, result the XOR
of `U_1..U_c` -/
def pbkdf2HmacSha512 (password salt : List Nat) (c : Nat) : Nat :=
  pbkdfGo (c - 1) (istOf password) (ostOf password) (u1Of password salt)
    (u1Of password salt)

/-- left rotation of a 64-bit word -/
def rol64 (s x : Nat) : Nat := ((x <<< s) ||| (x >>> (64 - s))) &&& M64

set_option maxRecDepth 4000 in
/-- one round of the keccak-f[1600] permutation; the 25 lanes are packed in
one `Nat`, lane `x + 5*y` at bit offset `64*(x + 5*y)` -/
def keccakRound (rc st : Nat) : Nat :=
  let a0 := st &&& M64
  let a1 := (st >>> 64) &&& M64
  let a2 := (st >>> 128) &&& M64
  let a3 := (st >>> 192) &&& M64
  let a4 := (st >>> 256) &&& M64
  let a5 := (st >>> 320) &&& M64
  let a6 := (st >>> 384) &&& M64
  let a7 := (st >>> 448) &&& M64
  let a8 := (st >>> 512) &&& M64
  let a9 := (st >>> 576) &&& M64
  let a10 := (st >>> 640) &&& M64
  let a11 := (st >>> 704) &&& M64
  let a12 := (st >>> 768) &&& M64
  let a13 := (st >>> 832) &&& M64
  let a14 := (st >>> 896) &&& M64
  let a15 := (st >>> 960) &&& M64
  let a16 := (st >>> 1024) &&& M64
  let a17 := (st >>> 1088) &&& M64
  let a18 := (st >>> 1152) &&& M64
  let a19 := (st >>> 1216) &&& M64
  let a20 := (st >>> 1280) &&& M64
  let a21 := (st >>> 1344) &&& M64
  let a22 := (st >>> 1408) &&& M64
  let a23 := (st >>> 1472) &&& M64
  let a24 := (st >>> 1536) &&& M64
  let c0 := a0 ^^^ a5 ^^^ a10 ^^^ a15 ^^^ a20
  let c1 := a1 ^^^ a6 ^^^ a11 ^^^ a16 ^^^ a21
  let c2 := a2 ^^^ a7 ^^^ a12 ^^^ a17 ^^^ a22
  let c3 := a3 ^^^ a8 ^^^ a13 ^^^ a18 ^^^ a23
  let c4 := a4 ^^^ a9 ^^^ a14 ^^^ a19 ^^^ a24
  let d0 := c4 ^^^ rol64 1 c1
  let d1 := c0 ^^^ rol64 1 c2
  let d2 := c1 ^^^ rol64 1 c3
  let d3 := c2 ^^^ rol64 1 c4
  let d4 := c3 ^^^ rol64 1 c0
  let e0 := a0 ^^^ d0
  let e1 := a1 ^^^ d1
  let e2 := a2 ^^^ d2
  let e3 := a3 ^^^ d3
  let e4 := a4 ^^^ d4
  let e5 := a5 ^^^ d0
  let e6 := a6 ^^^ d1
  let e7 := a7 ^^^ d2
  let e8 := a8 ^^^ d3
  let e9 := a9 ^^^ d4
  let e10 := a10 ^^^ d0
  let e11 := a11 ^^^ d1
  let e12 := a12 ^^^ d2
  let e13 := a13 ^^^ d3
  let e14 := a14 ^^^ d4
  let e15 := a15 ^^^ d0
  let e16 := a16 ^^^ d1
  let e17 := a17 ^^^ d2
  let e18 := a18 ^^^ d3
  let e19 := a19 ^^^ d4
  let e20 := a20 ^^^ d0
  let e21 := a21 ^^^ d1
  let e22 := a22 ^^^ d2
  let e23 := a23 ^^^ d3
  let e24 := a24 ^^^ d4
  let b0 := e0
  let b1 := rol64 44 e6
  let b2 := rol64 43 e12
  let b3 := rol64 21 e18
  let b4 := rol64 14 e24
  let b5 := rol64 28 e3
  let b6 := rol64 20 e9
  let b7 := rol64 3 e10
  let b8 := rol64 45 e16
  let b9 := rol64 61 e22
  let b10 := rol64 1 e1
  let b11 := rol64 6 e7
  let b12 := rol64 25 e13
  let b13 := rol64 8 e19
  let b14 := rol64 18 e20
  let b15 := rol64 27 e4
  let b16 := rol64 36 e5
  let b17 := rol64 10 e11
  let b18 := rol64 15 e17
  let b19 := rol64 56 e23
  let b20 := rol64 62 e2
  let b21 := rol64 55 e8
  let b22 := rol64 39 e14
  let b23 := rol64 41 e15
  let b24 := rol64 2 e21
  let r0 := b0 ^^^ ((b1 ^^^ M64) &&& b2)
  let r1 := b1 ^^^ ((b2 ^^^ M64) &&& b3)
  let r2 := b2 ^^^ ((b3 ^^^ M64) &&& b4)
  let r3 := b3 ^^^ ((b4 ^^^ M64) &&& b0)
  let r4 := b4 ^^^ ((b0 ^^^ M64) &&& b1)
  let r5 := b5 ^^^ ((b6 ^^^ M64) &&& b7)
  let r6 := b6 ^^^ ((b7 ^^^ M64) &&& b8)
  let r7 := b7 ^^^ ((b8 ^^^ M64) &&& b9)
  let r8 := b8 ^^^ ((b9 ^^^ M64) &&& b5)
  let r9 := b9 ^^^ ((b5 ^^^ M64) &&& b6)
  let r10 := b10 ^^^ ((b11 ^^^ M64) &&& b12)
  let r11 := b11 ^^^ ((b12 ^^^ M64) &&& b13)
  let r12 := b12 ^^^ ((b13 ^^^ M64) &&& b14)
  let r13 := b13 ^^^ ((b14 ^^^ M64) &&& b10)
  let r14 := b14 ^^^ ((b10 ^^^ M64) &&& b11)
  let r15 := b15 ^^^ ((b16 ^^^ M64) &&& b17)
  let r16 := b16 ^^^ ((b17 ^^^ M64) &&& b18)
  let r17 := b17 ^^^ ((b18 ^^^ M64) &&& b19)
  let r18 := b18 ^^^ ((b19 ^^^ M64) &&& b15)
  let r19 := b19 ^^^ ((b15 ^^^ M64) &&& b16)
  let r20 := b20 ^^^ ((b21 ^^^ M64) &&& b22)
  let r21 := b21 ^^^ ((b22 ^^^ M64) &&& b23)
  let r22 := b22 ^^^ ((b23 ^^^ M64) &&& b24)
  let r23 := b23 ^^^ ((b24 ^^^ M64) &&& b20)
  let r24 := b24 ^^^ ((b20 ^^^ M64) &&& b21)
  let r0c := r0 ^^^ rc
  ((((((((((((((((((((((((r0c ||| (r1 <<< 64)) ||| (r2 <<< 128)) ||| (r3 <<< 192)) ||| (r4 <<< 256)) ||| (r5 <<< 320)) ||| (r6 <<< 384)) ||| (r7 <<< 448)) ||| (r8 <<< 512)) ||| (r9 <<< 576)) ||| (r10 <<< 640)) ||| (r11 <<< 704)) ||| (r12 <<< 768)) ||| (r13 <<< 832)) ||| (r14 <<< 896)) ||| (r15 <<< 960)) ||| (r16 <<< 1024)) ||| (r17 <<< 1088)) ||| (r18 <<< 1152)) ||| (r19 <<< 1216)) ||| (r20 <<< 1280)) ||| (r21 <<< 1344)) ||| (r22 <<< 1408)) ||| (r23 <<< 1472)) ||| (r24 <<< 1536))

def keccakRCs : List Nat := [1, 32898, 9223372036854808714, 9223372039002292224, 32907, 2147483649, 9223372039002292353, 9223372036854808585, 138, 136, 2147516425, 2147483658, 2147516555, 9223372036854775947, 9223372036854808713, 9223372036854808579, 9223372036854808578, 9223372036854775936, 32778, 9223372039002259466, 9223372039002292353, 9223372036854808704, 2147483649, 9223372039002292232]

def keccakP (st : Nat) : Nat :=
  keccakRCs.foldl (fun s rc => sF (keccakRound rc s) (fun s2 => s2)) st

def bytesToNatLE (bs : List Nat) : Nat := bs.foldr (fun b a => a * 256 + b) 0

def natToBytesLE : Nat → Nat → List Nat
  | 0, _ => []
  | n+1, v => v % 256 :: natToBytesLE n (v / 256)

/-- the 17 rate lanes of one 136-byte block, packed little-endian per lane -/
def keccakLanes : Nat → List Nat → Nat
  | 0, _ => 0
  | j+1, bytes => bytesToNatLE (bytes.take 8) ||| (keccakLanes j (bytes.drop 8) <<< 64)

/-- keccak padding 0x01 .. 0x80 to a multiple of the 136-byte rate -/
def keccakPad (msg : List Nat) : List Nat :=
  let padlen := 136 - msg.length % 136
  if padlen = 1 then msg ++ [129]
  else msg ++ [1] ++ List.replicate (padlen - 2) 0 ++ [128]

def keccakAbsorb : Nat → Nat → List Nat → Nat
  | 0, st, _ => st
  | _, st, [] => st
  | fuel+1, st, bytes =>
    sF (keccakP (st ^^^ keccakLanes 17 (bytes.take 136)))
      (fun st2 => keccakAbsorb fuel st2 (bytes.drop 136))

/-- keccak-256 of a byte list (the pre-NIST padding used by Ethereum) -/
def keccak256Bytes (msg : List Nat) : List Nat :=
  let padded := keccakPad msg
  let st := keccakAbsorb (padded.length / 136) 0 padded
  natToBytesLE 8 (st &&& M64) ++ natToBytesLE 8 ((st >>> 64) &&& M64) ++
  natToBytesLE 8 ((st >>> 128) &&& M64) ++ natToBytesLE 8 ((st >>> 192) &&& M64)

/-! secp256k1: curve constants, Jacobian-coordinate arithmetic, scalar
multiplication of the base point, and point decoding to affine form -/

def secpP : Nat := 115792089237316195423570985008687907853269984665640564039457584007908834671663
def secpN : Nat := 115792089237316195423570985008687907852837564279074904382605163141518161494337
def secpGx : Nat := 55066263022277343669578718895168534326250603453777594175500187360389116729240
def secpGy : Nat := 32670510020758816978083085130507043184471273380659243275938904335757337482424

def mulP (a b : Nat) : Nat := a * b % secpP
def addP (a b : Nat) : Nat := (a + b) % secpP
def subP (a b : Nat) : Nat := (a + (secpP - b % secpP)) % secpP

def powPGo : Nat → Nat → Nat → Nat → Nat
  | 0, _, _, acc => acc
  | fuel+1, b, e, acc =>
    if e = 0 then acc
    else
      sF (mulP b b) (fun b2 =>
      sF (if e % 2 = 1 then mulP acc b else acc) (fun acc2 =>
      powPGo fuel b2 (e / 2) acc2))

/-- modular inverse by Fermat: `a^(p-2) mod p` -/
def invP (a : Nat) : Nat := powPGo 256 a (secpP - 2) 1

/-- Jacobian point: `(X, Y, Z)` with `Z = 0` encoding the point at infinity -/
def jDouble : Nat × Nat × Nat → Nat × Nat × Nat
  | (x1, y1, z1) =>
    if z1 = 0 ∨ y1 = 0 then (0, 1, 0)
    else
      sF (mulP y1 y1) (fun yy =>
      sF (mulP 4 (mulP x1 yy)) (fun s =>
      sF (mulP 3 (mulP x1 x1)) (fun m =>
      sF (subP (mulP m m) (mulP 2 s)) (fun x3 =>
      sF (subP (mulP m (subP s x3)) (mulP 8 (mulP yy yy))) (fun y3 =>
      sF (mulP 2 (mulP y1 z1)) (fun z3 => (x3, y3, z3)))))))

/-- mixed Jacobian + affine addition: adds the affine point `(x2, y2)` -/
def jAddAffine (P : Nat × Nat × Nat) (x2 y2 : Nat) : Nat × Nat × Nat :=
  match P with
  | (x1, y1, z1) =>
    if z1 = 0 then (x2, y2, 1)
    else
      sF (mulP z1 z1) (fun zz =>
      sF (mulP x2 zz) (fun u2 =>
      sF (mulP y2 (mulP zz z1)) (fun s2 =>
      sF (subP u2 x1) (fun h =>
      sF (subP s2 y1) (fun r =>
      if h = 0 then
        if r = 0 then jDouble (x1, y1, z1) else (0, 1, 0)
      else
        sF (mulP h h) (fun hh =>
        sF (mulP h hh) (fun hhh =>
        sF (mulP x1 hh) (fun v =>
        sF (subP (subP (mulP r r) hhh) (mulP 2 v)) (fun x3 =>
        sF (subP (mulP r (subP v x3)) (mulP y1 hhh)) (fun y3 =>
        sF (mulP h z1) (fun z3 => (x3, y3, z3))))))))))))

def jMulGo : Nat → Nat → Nat × Nat × Nat → Nat × Nat × Nat
  | 0, _, acc => acc
  | fuel+1, k, acc =>
    let d := jDouble acc
    let acc2 := if (k >>> fuel) &&& 1 = 1 then jAddAffine d secpGx secpGy else d
    match acc2 with
    | (x, y, z) => sF x (fun x2 => sF y (fun y2 => sF z (fun z2 =>
        jMulGo fuel k (x2, y2, z2))))

/-- the scalar multiple `k·G` in affine coordinates; `none` is the point at infinity -/
def pubPoint (k : Nat) : Option (Nat × Nat) :=
  match jMulGo 256 k (0, 1, 0) with
  | (x, y, z) =>
    if z = 0 then none
    else
      sF (invP z) (fun zi =>
      sF (mulP zi zi) (fun zi2 =>
      some (mulP x zi2, mulP y (mulP zi2 zi))))

def ser32 (i : Nat) : List Nat := natToBytesBE 4 i
def ser256 (k : Nat) : List Nat := natToBytesBE 32 k

/-- SEC1 compressed serialization of an affine point -/
def serPoint (x y : Nat) : List Nat := (2 + y % 2) :: ser256 x

/-- BIP32 private child key derivation (CKDpriv): hardened indices use the
serialized parent key, normal indices the compressed parent public key; the
out-of-range cases the standard declares invalid are reported as errors -/
def ckdPriv (kc : Nat × Nat) (i : Nat) : Except String (Nat × Nat) :=
  match (if 2147483648 ≤ i then
           Except.ok (0 :: ser256 kc.1 ++ ser32 i)
         else
           match pubPoint kc.1 with
           | none => Except.error "invalid parent key"
           | some pt => Except.ok (serPoint pt.1 pt.2 ++ ser32 i) :
           Except String (List Nat)) with
  | Except.error e => Except.error e
  | Except.ok data =>
    sF (hmac512 (ser256 kc.2) data) (fun i64 =>
    sF (i64 >>> 256) (fun il =>
    sF (i64 &&& (2 ^ 256 - 1)) (fun ir =>
    if secpN ≤ il then Except.error "invalid child key"
    else
      sF ((il + kc.1) % secpN) (fun child =>
      if child = 0 then Except.error "invalid child key"
      else Except.ok (child, ir)))))

/-- BIP32 master key: HMAC-SHA512 with key `"Bitcoin seed"` over the seed -/
def masterKey (seed : List Nat) : Except String (Nat × Nat) :=
  sF (hmac512 (("Bitcoin seed").data.map Char.toNat) seed) (fun i64 =>
  sF (i64 >>> 256) (fun il =>
  sF (i64 &&& (2 ^ 256 - 1)) (fun ir =>
  if il = 0 ∨ secpN ≤ il then Except.error "invalid seed"
  else Except.ok (il, ir))))

def splitSlashGo : List Char → List Char → List (List Char)
  | [], cur => [cur.reverse]
  | c :: rest, cur =>
    if c = '/' then cur.reverse :: splitSlashGo rest []
    else splitSlashGo rest (c :: cur)

def digitsValGo : List Char → Nat → Option Nat
  | [], acc => some acc
  | c :: rest, acc =>
    if 48 ≤ c.toNat ∧ c.toNat ≤ 57 then digitsValGo rest (acc * 10 + (c.toNat - 48))
    else none

/-- one path component: decimal digits with an optional trailing apostrophe
marking a hardened index (offset 2^31) -/
def parseSegment (seg : List Char) : Option Nat :=
  match seg.getLast? with
  | none => none
  | some c =>
    if c = Char.ofNat 39 then
      if seg.dropLast = [] then none
      else (digitsValGo seg.dropLast 0).map (fun v => v + 2147483648)
    else digitsValGo seg 0

/-- parse a derivation path `m/a'/b'/.../n` into its component indices -/
def parsePathIndices (path : String) : Except String (List Nat) :=
  match splitSlashGo path.data [] with
  | [] => Except.error "invalid path"
  | root :: segs =>
    if root = ['m'] then
      match segs.mapM parseSegment with
      | none => Except.error "invalid path"
      | some idxs => Except.ok idxs
    else Except.error "invalid path"

def hexCharVal (c : Char) : Nat := if c.toNat ≤ 57 then c.toNat - 48 else c.toNat - 87

/-- EIP-55 mixed-case rule: a hex letter is uppercased when the matching
nibble of `keccak256(lowercaseHexAddress)` is at least 8 -/
def eip55Char (pr : Char × Char) : Char :=
  if 97 ≤ pr.1.toNat ∧ 8 ≤ hexCharVal pr.2 then Char.ofNat (pr.1.toNat - 32) else pr.1

def eip55Address (addr20 : List Nat) : String :=
  let hx := (bytesToHex addr20).data
  let chk := (bytesToHex (keccak256Bytes (hx.map Char.toNat))).data
  String.mk ('0' :: 'x' :: (hx.zip chk).map eip55Char)

/-- model of `HDNodeWallet.fromSeed(seed).derivePath(path)`: BIP32 derivation
along the parsed path from the master key, then the EIP-55 checksummed
address of the keccak256 hash of the uncompressed public key -/
def realHdDerivePath (seed : Seed) (path : String) : Except String Wallet :=
  match parsePathIndices path with
  | Except.error e => Except.error e
  | Except.ok idxs =>
    match masterKey seed with
    | Except.error e => Except.error e
    | Except.ok master =>
      match idxs.foldlM ckdPriv master with
      | Except.error e => Except.error e
      | Except.ok child =>
        match pubPoint child.1 with
        | none => Except.error "invalid derived key"
        | some pt =>
          Except.ok
            ⟨eip55Address ((keccak256Bytes (ser256 pt.1 ++ ser256 pt.2)).drop 12),
             "0x" ++ bytesToHex (ser256 child.1)⟩

/-- model of `bip39.mnemonicToSeedSync` (empty passphrase): PBKDF2-HMAC-SHA512
of the UTF-8 mnemonic with salt `"mnemonic"`, 2048 iterations, 64 bytes (the
mnemonics concerned are ASCII, on which NFKD normalization is the identity) -/
def realMnemonicToSeed (m : String) : List Nat :=
  natToBytesBE 64
    (pbkdf2HmacSha512 (m.data.map Char.toNat) (("mnemonic").data.map Char.toNat) 2048)

/-! ### Chunked kernel evaluation of the 2048 PBKDF2 iterations -/

theorem sF_eq {α : Sort u} (x : Nat) (k : Nat → α) : sF x k = k x := by
  cases x <;> rfl

theorem pbkdfGo_pair (n : Nat) : ∀ ist ost u acc : Nat,
    pbkdfGo n ist ost u acc = (pbkdfPair n ist ost (u, acc)).2 := by
  induction n with
  | zero => intro ist ost u acc; rfl
  | succ n ih =>
    intro ist ost u acc
    simp only [pbkdfGo, pbkdfPair, sF_eq]
    exact ih ist ost _ _

theorem pbkdfPair_add (a b ist ost : Nat) (s : Nat × Nat) :
    pbkdfPair (a + b) ist ost s = pbkdfPair b ist ost (pbkdfPair a ist ost s) := by
  induction a generalizing s with
  | zero => simp [pbkdfPair, Nat.zero_add]
  | succ a ih =>
    rw [show a + 1 + b = (a + b) + 1 by omega]
    simp only [pbkdfPair, sF_eq]
    exact ih _

/-- the C1 test-vector mnemonic (the all-zero-entropy BIP39 fixture) -/
def c1Mnemonic : String :=
  "abandon abandon abandon abandon abandon abandon abandon abandon abandon abandon abandon about"

/-- the BIP39 seed of the C1 mnemonic (empty passphrase) -/
def c1Seed : List Nat := [94, 176, 11, 189, 220, 240, 105, 8, 72, 137, 168, 171, 145, 85, 86, 129, 101, 245, 196, 83, 204, 184, 94, 112, 129, 26, 174, 214, 246, 218, 95, 193, 154, 90, 196, 11, 56, 156, 211, 112, 208, 134, 32, 109, 236, 138, 166, 196, 61, 174, 166, 105, 15, 32, 173, 61, 141, 72, 178, 210, 206, 158, 56, 228]

theorem pbkdfChunk0 :
    pbkdfPair 32 10468683842486578145264356991734223572653524354660049206311581660438991474758024121521140297297774895679865233876240857588960575004859884415888454358128062 13288892686255875303959900692803541847857188832728530167366222028633524236431143143130705259410641441459772430520746127054290760539436806979861656762130315 (5281647394817207772940303989511398945426893379361828068487779081461910995983955259522149717436805822879914698364697185480759068547217089903725453340453687, 5281647394817207772940303989511398945426893379361828068487779081461910995983955259522149717436805822879914698364697185480759068547217089903725453340453687) = (8363176555413069742143214152482755259426469081403660229978675847107028753313726225509702286438492236930898527709196545304779274142593955501119650380509572, 8215522910869985371215366417885938751336339328105123190992118752394236568168338861723810584610860916893205668645736248517052547503698347849895103187479371) := by decide!

theorem pbkdfChunk1 :
    pbkdfPair 32 10468683842486578145264356991734223572653524354660049206311581660438991474758024121521140297297774895679865233876240857588960575004859884415888454358128062 13288892686255875303959900692803541847857188832728530167366222028633524236431143143130705259410641441459772430520746127054290760539436806979861656762130315 (8363176555413069742143214152482755259426469081403660229978675847107028753313726225509702286438492236930898527709196545304779274142593955501119650380509572, 8215522910869985371215366417885938751336339328105123190992118752394236568168338861723810584610860916893205668645736248517052547503698347849895103187479371) = (12505881956466108256903530100461858566080880521899833971120591709060422811443132206901563950004374110595096541198448842389778622806083570047545874586462987, 9982135107322163616653085158391726374757768985862881174531181050381275584974875058564281134751835903335239784289382447897148362539791911266028287030886856) := by decide!

theorem pbkdfChunk2 :
    pbkdfPair 32 10468683842486578145264356991734223572653524354660049206311581660438991474758024121521140297297774895679865233876240857588960575004859884415888454358128062 13288892686255875303959900692803541847857188832728530167366222028633524236431143143130705259410641441459772430520746127054290760539436806979861656762130315 (12505881956466108256903530100461858566080880521899833971120591709060422811443132206901563950004374110595096541198448842389778622806083570047545874586462987, 9982135107322163616653085158391726374757768985862881174531181050381275584974875058564281134751835903335239784289382447897148362539791911266028287030886856) = (2823866394036672790992329115456997047212909917103275653212114708421883815693498213533772438430995169117614960683672451182903370827383011784669776672073784, 12339889471869272050297012034478671523286962380984053734219676709634021654817790607880937877366874287129283989084961552074089068892507540984900248682896275) := by decide!

theorem pbkdfChunk3 :
    pbkdfPair 32 10468683842486578145264356991734223572653524354660049206311581660438991474758024121521140297297774895679865233876240857588960575004859884415888454358128062 13288892686255875303959900692803541847857188832728530167366222028633524236431143143130705259410641441459772430520746127054290760539436806979861656762130315 (2823866394036672790992329115456997047212909917103275653212114708421883815693498213533772438430995169117614960683672451182903370827383011784669776672073784, 12339889471869272050297012034478671523286962380984053734219676709634021654817790607880937877366874287129283989084961552074089068892507540984900248682896275) = (1497917394956703478709358905724275900555530784743383325475191379286932694893032821854970315767878809236695300053860528434536179597834680342267195531799613, 12018339159481758406361143793657984849546214471319311336383027412417584136314925862575769348201960039341479760139327327099714884366123588894521544615920083) := by decide!

theorem pbkdfChunk4 :
    pbkdfPair 32 10468683842486578145264356991734223572653524354660049206311581660438991474758024121521140297297774895679865233876240857588960575004859884415888454358128062 13288892686255875303959900692803541847857188832728530167366222028633524236431143143130705259410641441459772430520746127054290760539436806979861656762130315 (1497917394956703478709358905724275900555530784743383325475191379286932694893032821854970315767878809236695300053860528434536179597834680342267195531799613, 12018339159481758406361143793657984849546214471319311336383027412417584136314925862575769348201960039341479760139327327099714884366123588894521544615920083) = (316308072039193767505506527772045627931503467586510993794935907342193535082609845284311429059563488301964460880248108707850360632704145851287827312417149, 8608813505509188016975527934658412559249434146472357945084324646332675665961125666351725035249448430653120499067721921875518325456016471490932045211115507) := by decide!

theorem pbkdfChunk5 :
    pbkdfPair 32 10468683842486578145264356991734223572653524354660049206311581660438991474758024121521140297297774895679865233876240857588960575004859884415888454358128062 13288892686255875303959900692803541847857188832728530167366222028633524236431143143130705259410641441459772430520746127054290760539436806979861656762130315 (316308072039193767505506527772045627931503467586510993794935907342193535082609845284311429059563488301964460880248108707850360632704145851287827312417149, 8608813505509188016975527934658412559249434146472357945084324646332675665961125666351725035249448430653120499067721921875518325456016471490932045211115507) = (8640914004655626694109139928672888801980701042570702242707478973637645825762916375607731233470783149678801635760500115838280011449271697838632305906538179, 4014821531275974518501432840339807431121566479745494652248456497176115296680543616038696923075262245905398745061252795538212636163095989552039565009029972) := by decide!

theorem pbkdfChunk6 :
    pbkdfPair 32 10468683842486578145264356991734223572653524354660049206311581660438991474758024121521140297297774895679865233876240857588960575004859884415888454358128062 13288892686255875303959900692803541847857188832728530167366222028633524236431143143130705259410641441459772430520746127054290760539436806979861656762130315 (8640914004655626694109139928672888801980701042570702242707478973637645825762916375607731233470783149678801635760500115838280011449271697838632305906538179, 4014821531275974518501432840339807431121566479745494652248456497176115296680543616038696923075262245905398745061252795538212636163095989552039565009029972) = (537220942773103906515409267599809781038601524756521067048855164403169346148330343243866737059292517971674993694229225242110307757691169235125781219449520, 12006202122031259671239755803128184726587785689320770581704963356957142329642346755578769395855909661170979233408981687738267854377463106028269750613362362) := by decide!

theorem pbkdfChunk7 :
    pbkdfPair 32 10468683842486578145264356991734223572653524354660049206311581660438991474758024121521140297297774895679865233876240857588960575004859884415888454358128062 13288892686255875303959900692803541847857188832728530167366222028633524236431143143130705259410641441459772430520746127054290760539436806979861656762130315 (537220942773103906515409267599809781038601524756521067048855164403169346148330343243866737059292517971674993694229225242110307757691169235125781219449520, 12006202122031259671239755803128184726587785689320770581704963356957142329642346755578769395855909661170979233408981687738267854377463106028269750613362362) = (12042406469850928790955323972967439081696097054892124023961555889031922030529031919592763054171758783463772535394397511673740977880669258946166934323530034, 7805212651641470889322807331220839705019157700792675882131167372507481892973152883681843339091828942353144463523297019136366570961673558807991018268979967) := by decide!

theorem pbkdfChunk8 :
    pbkdfPair 32 10468683842486578145264356991734223572653524354660049206311581660438991474758024121521140297297774895679865233876240857588960575004859884415888454358128062 13288892686255875303959900692803541847857188832728530167366222028633524236431143143130705259410641441459772430520746127054290760539436806979861656762130315 (12042406469850928790955323972967439081696097054892124023961555889031922030529031919592763054171758783463772535394397511673740977880669258946166934323530034, 7805212651641470889322807331220839705019157700792675882131167372507481892973152883681843339091828942353144463523297019136366570961673558807991018268979967) = (221231495458551773553472482890358624695875796796245726849267669851550800470997534246282428454368221180096841885334844959798823941203086684688493643078397, 7083433210666032773121064453015830413057024036442187032228185166427847168745543584305025332109828556501794697294540849861201739695295110382536912466166623) := by decide!

theorem pbkdfChunk9 :
    pbkdfPair 32 10468683842486578145264356991734223572653524354660049206311581660438991474758024121521140297297774895679865233876240857588960575004859884415888454358128062 13288892686255875303959900692803541847857188832728530167366222028633524236431143143130705259410641441459772430520746127054290760539436806979861656762130315 (221231495458551773553472482890358624695875796796245726849267669851550800470997534246282428454368221180096841885334844959798823941203086684688493643078397, 7083433210666032773121064453015830413057024036442187032228185166427847168745543584305025332109828556501794697294540849861201739695295110382536912466166623) = (8905782119578975112170877753468179943085755274480381345940334075230844178359227789902524311521298754163786492341620589704558827040162681330752529186764925, 2804571194115817681628862494571149246237857137641949455559517144168053686871907009775887483766255257221206442147472635504835879597004862474793400755687936) := by decide!

theorem pbkdfChunk10 :
    pbkdfPair 32 10468683842486578145264356991734223572653524354660049206311581660438991474758024121521140297297774895679865233876240857588960575004859884415888454358128062 13288892686255875303959900692803541847857188832728530167366222028633524236431143143130705259410641441459772430520746127054290760539436806979861656762130315 (8905782119578975112170877753468179943085755274480381345940334075230844178359227789902524311521298754163786492341620589704558827040162681330752529186764925, 2804571194115817681628862494571149246237857137641949455559517144168053686871907009775887483766255257221206442147472635504835879597004862474793400755687936) = (12884448033717704317236368969808221401780102501025446403208087569605060327775397124226080848564687274727082061091644755927865460871894837010713664683651044, 10441877997362393311184967325990345766371949070409930265351605300496137909052997149136327406211023317218579852625398975182923186028528442152062496093910072) := by decide!

theorem pbkdfChunk11 :
    pbkdfPair 32 10468683842486578145264356991734223572653524354660049206311581660438991474758024121521140297297774895679865233876240857588960575004859884415888454358128062 13288892686255875303959900692803541847857188832728530167366222028633524236431143143130705259410641441459772430520746127054290760539436806979861656762130315 (12884448033717704317236368969808221401780102501025446403208087569605060327775397124226080848564687274727082061091644755927865460871894837010713664683651044, 10441877997362393311184967325990345766371949070409930265351605300496137909052997149136327406211023317218579852625398975182923186028528442152062496093910072) = (4886485993823308290822938866363163748258895534100499733932848552789997817922995938686045692702993261533516097710415050523475278609963094230257352399442169, 10171264486146586195425519875311198325828296746374174122047848278947663459190690464529636132128949150586230780864702376116849416323533879650390992640225895) := by decide!

theorem pbkdfChunk12 :
    pbkdfPair 32 10468683842486578145264356991734223572653524354660049206311581660438991474758024121521140297297774895679865233876240857588960575004859884415888454358128062 13288892686255875303959900692803541847857188832728530167366222028633524236431143143130705259410641441459772430520746127054290760539436806979861656762130315 (4886485993823308290822938866363163748258895534100499733932848552789997817922995938686045692702993261533516097710415050523475278609963094230257352399442169, 10171264486146586195425519875311198325828296746374174122047848278947663459190690464529636132128949150586230780864702376116849416323533879650390992640225895) = (1907674138404869267368968771108607921294708785748571630629675621749577502871928681591157043125515244790255448381980904944788909153129923626721393150267263, 4845768325487381749557504513334601590426636194865580073882559634823276075602182693407045134164207086550589652156181264488429724604093324830892611198295040) := by decide!

theorem pbkdfChunk13 :
    pbkdfPair 32 10468683842486578145264356991734223572653524354660049206311581660438991474758024121521140297297774895679865233876240857588960575004859884415888454358128062 13288892686255875303959900692803541847857188832728530167366222028633524236431143143130705259410641441459772430520746127054290760539436806979861656762130315 (1907674138404869267368968771108607921294708785748571630629675621749577502871928681591157043125515244790255448381980904944788909153129923626721393150267263, 4845768325487381749557504513334601590426636194865580073882559634823276075602182693407045134164207086550589652156181264488429724604093324830892611198295040) = (9457430433742418635893809753895858420684281866773274283740357824633813865191868435721334958536713832331041482205561509344604849019586093602667406928293478, 7088067536858663264565229186430395576302801031683005122066266770681202671174335626641235164040951934339613120714905577000338887802023449680509291284907326) := by decide!

theorem pbkdfChunk14 :
    pbkdfPair 32 10468683842486578145264356991734223572653524354660049206311581660438991474758024121521140297297774895679865233876240857588960575004859884415888454358128062 13288892686255875303959900692803541847857188832728530167366222028633524236431143143130705259410641441459772430520746127054290760539436806979861656762130315 (9457430433742418635893809753895858420684281866773274283740357824633813865191868435721334958536713832331041482205561509344604849019586093602667406928293478, 7088067536858663264565229186430395576302801031683005122066266770681202671174335626641235164040951934339613120714905577000338887802023449680509291284907326) = (956499237334450701765894143188436012311724133579028698034215328064812646527475011873125056427370980687219294595124709672835630879378434337839800378349815, 3924233248501752177796131331213434505567810736856410181117630413253590990134221979679165283679112850168106037394232172401148976986285641120636558227864409) := by decide!

theorem pbkdfChunk15 :
    pbkdfPair 32 10468683842486578145264356991734223572653524354660049206311581660438991474758024121521140297297774895679865233876240857588960575004859884415888454358128062 13288892686255875303959900692803541847857188832728530167366222028633524236431143143130705259410641441459772430520746127054290760539436806979861656762130315 (956499237334450701765894143188436012311724133579028698034215328064812646527475011873125056427370980687219294595124709672835630879378434337839800378349815, 3924233248501752177796131331213434505567810736856410181117630413253590990134221979679165283679112850168106037394232172401148976986285641120636558227864409) = (9609410977172000209711643483966391472977609274880664929699906264807439966757795731251918077966053298814503995068229731930516793444412335200558723579082549, 4221558098529100036354687682826882531034926893080440183841227042380329118552468162665084430582987127286361568445328019131490977642869528425974672450417758) := by decide!

theorem pbkdfChunk16 :
    pbkdfPair 32 10468683842486578145264356991734223572653524354660049206311581660438991474758024121521140297297774895679865233876240857588960575004859884415888454358128062 13288892686255875303959900692803541847857188832728530167366222028633524236431143143130705259410641441459772430520746127054290760539436806979861656762130315 (9609410977172000209711643483966391472977609274880664929699906264807439966757795731251918077966053298814503995068229731930516793444412335200558723579082549, 4221558098529100036354687682826882531034926893080440183841227042380329118552468162665084430582987127286361568445328019131490977642869528425974672450417758) = (974742560382832444364691808996588080307345155601470688938997758530228701117865858595913813405891570550981519890455559608260977864664160310120544010054027, 6094703390505379864854788804321004481474483926869184971905864257018881245472239327765403117356492470675470175981752336167231687448130314921402482519503733) := by decide!

theorem pbkdfChunk17 :
    pbkdfPair 32 10468683842486578145264356991734223572653524354660049206311581660438991474758024121521140297297774895679865233876240857588960575004859884415888454358128062 13288892686255875303959900692803541847857188832728530167366222028633524236431143143130705259410641441459772430520746127054290760539436806979861656762130315 (974742560382832444364691808996588080307345155601470688938997758530228701117865858595913813405891570550981519890455559608260977864664160310120544010054027, 6094703390505379864854788804321004481474483926869184971905864257018881245472239327765403117356492470675470175981752336167231687448130314921402482519503733) = (571928805743056875974959527997677136020176355687480846848859962129981262967670180266316647073655853160481133474307535922375133006870447059273703271524255, 1154619098721317973063039965736639136814392561669647317010731121744858030569971656886027846720266929041709191525060984693439592823487814396278707781169946) := by decide!

theorem pbkdfChunk18 :
    pbkdfPair 32 10468683842486578145264356991734223572653524354660049206311581660438991474758024121521140297297774895679865233876240857588960575004859884415888454358128062 13288892686255875303959900692803541847857188832728530167366222028633524236431143143130705259410641441459772430520746127054290760539436806979861656762130315 (571928805743056875974959527997677136020176355687480846848859962129981262967670180266316647073655853160481133474307535922375133006870447059273703271524255, 1154619098721317973063039965736639136814392561669647317010731121744858030569971656886027846720266929041709191525060984693439592823487814396278707781169946) = (10877501016486625609789494830517716680422418392468009806697770144048394222157577987687005152130689957694927328472065690372665905730012188132885849075418592, 4254727191793121176372451890073821876483757496515263458930833468202908971860957718996846703804116134246638214565049545744750495191930864443374721356556218) := by decide!

theorem pbkdfChunk19 :
    pbkdfPair 32 10468683842486578145264356991734223572653524354660049206311581660438991474758024121521140297297774895679865233876240857588960575004859884415888454358128062 13288892686255875303959900692803541847857188832728530167366222028633524236431143143130705259410641441459772430520746127054290760539436806979861656762130315 (10877501016486625609789494830517716680422418392468009806697770144048394222157577987687005152130689957694927328472065690372665905730012188132885849075418592, 4254727191793121176372451890073821876483757496515263458930833468202908971860957718996846703804116134246638214565049545744750495191930864443374721356556218) = (10296221739963707565867723971976055846722133646391339916467160533575016732176553471093018346545860302532864723745602029436736210959545605805894334995944755, 12166899476055149408691123845846151184797249553895393840326438587892542458395172269717890227980374994778451997453356602582705200945029103877381928432341019) := by decide!

theorem pbkdfChunk20 :
    pbkdfPair 32 10468683842486578145264356991734223572653524354660049206311581660438991474758024121521140297297774895679865233876240857588960575004859884415888454358128062 13288892686255875303959900692803541847857188832728530167366222028633524236431143143130705259410641441459772430520746127054290760539436806979861656762130315 (10296221739963707565867723971976055846722133646391339916467160533575016732176553471093018346545860302532864723745602029436736210959545605805894334995944755, 12166899476055149408691123845846151184797249553895393840326438587892542458395172269717890227980374994778451997453356602582705200945029103877381928432341019) = (12640661904267779349512239898725098377421888352181583416155509528093992729510466688688100794253579528339772158390569895980801778874232498552089773707431425, 10788823805363331869407052872984232716345950235135058244891554369512072323281229712597871593885313151055903321063495614081277919670306301626502710261582921) := by decide!

theorem pbkdfChunk21 :
    pbkdfPair 32 10468683842486578145264356991734223572653524354660049206311581660438991474758024121521140297297774895679865233876240857588960575004859884415888454358128062 13288892686255875303959900692803541847857188832728530167366222028633524236431143143130705259410641441459772430520746127054290760539436806979861656762130315 (12640661904267779349512239898725098377421888352181583416155509528093992729510466688688100794253579528339772158390569895980801778874232498552089773707431425, 10788823805363331869407052872984232716345950235135058244891554369512072323281229712597871593885313151055903321063495614081277919670306301626502710261582921) = (4098242536611666170354566709619614544271220174062107212498493283835952534751127413737042938967489461027514985613117657138850536331396290066915212150066871, 9420547703872423180710204720515123662214289951957169409978159545196381397199692033491644001741910746543365899433582907089425746836793408491511333683001107) := by decide!

theorem pbkdfChunk22 :
    pbkdfPair 32 10468683842486578145264356991734223572653524354660049206311581660438991474758024121521140297297774895679865233876240857588960575004859884415888454358128062 13288892686255875303959900692803541847857188832728530167366222028633524236431143143130705259410641441459772430520746127054290760539436806979861656762130315 (4098242536611666170354566709619614544271220174062107212498493283835952534751127413737042938967489461027514985613117657138850536331396290066915212150066871, 9420547703872423180710204720515123662214289951957169409978159545196381397199692033491644001741910746543365899433582907089425746836793408491511333683001107) = (12847983772469043072873628547341046525467713207478579951621693467480194671536037625866729724617750897843548730212738767536239793267067825229470585123358739, 1296395924118854083724150143596327020295406481356618771991550699214935324582845051037246432503250708047821467652113171881883250685985551276330429178528745) := by decide!

theorem pbkdfChunk23 :
    pbkdfPair 32 10468683842486578145264356991734223572653524354660049206311581660438991474758024121521140297297774895679865233876240857588960575004859884415888454358128062 13288892686255875303959900692803541847857188832728530167366222028633524236431143143130705259410641441459772430520746127054290760539436806979861656762130315 (12847983772469043072873628547341046525467713207478579951621693467480194671536037625866729724617750897843548730212738767536239793267067825229470585123358739, 1296395924118854083724150143596327020295406481356618771991550699214935324582845051037246432503250708047821467652113171881883250685985551276330429178528745) = (12955788473245925626486502567843632549885606605151480743644725300987378678066406135643189248994711124954338250730785932424779685634640884929121531779156076, 6489258372419697996229193132214425343824099781833997237158236157023222299374722494047442681470468016796684440510077107860663859117528139272197108222253282) := by decide!

theorem pbkdfChunk24 :
    pbkdfPair 32 10468683842486578145264356991734223572653524354660049206311581660438991474758024121521140297297774895679865233876240857588960575004859884415888454358128062 13288892686255875303959900692803541847857188832728530167366222028633524236431143143130705259410641441459772430520746127054290760539436806979861656762130315 (12955788473245925626486502567843632549885606605151480743644725300987378678066406135643189248994711124954338250730785932424779685634640884929121531779156076, 6489258372419697996229193132214425343824099781833997237158236157023222299374722494047442681470468016796684440510077107860663859117528139272197108222253282) = (4843915306842871775766790610293083985977672334832432994528532755742328584419152990196099316656561748626072327082798373974165116047243289942765536170943580, 7958050397090774870035862644388164046553271887277352005432148448616620973525639750967609983226113382218855918974351815255970669478454051293228293546370511) := by decide!

theorem pbkdfChunk25 :
    pbkdfPair 32 10468683842486578145264356991734223572653524354660049206311581660438991474758024121521140297297774895679865233876240857588960575004859884415888454358128062 13288892686255875303959900692803541847857188832728530167366222028633524236431143143130705259410641441459772430520746127054290760539436806979861656762130315 (4843915306842871775766790610293083985977672334832432994528532755742328584419152990196099316656561748626072327082798373974165116047243289942765536170943580, 7958050397090774870035862644388164046553271887277352005432148448616620973525639750967609983226113382218855918974351815255970669478454051293228293546370511) = (12116792923250191508753813926274304070367050139560934151006845169067825650521236028257805708935745106331505010414828622151702636596394555552178095054638287, 1321552761385936725619123347906135297426958670051335977276834493061607299586446973729295041569001154235463825081614376697467883975757559707976513740726343) := by decide!

theorem pbkdfChunk26 :
    pbkdfPair 32 10468683842486578145264356991734223572653524354660049206311581660438991474758024121521140297297774895679865233876240857588960575004859884415888454358128062 13288892686255875303959900692803541847857188832728530167366222028633524236431143143130705259410641441459772430520746127054290760539436806979861656762130315 (12116792923250191508753813926274304070367050139560934151006845169067825650521236028257805708935745106331505010414828622151702636596394555552178095054638287, 1321552761385936725619123347906135297426958670051335977276834493061607299586446973729295041569001154235463825081614376697467883975757559707976513740726343) = (3469596791342625335483983942366675465422141924827371088863948785984830693585254730228468646470563011785863762597111100437752931785214262145468490638306426, 3554400501800450091571601429681464131952273013833968267450297082798409025288300725423347681910765922149016498159865558483065815928938297037853622619794489) := by decide!

theorem pbkdfChunk27 :
    pbkdfPair 32 10468683842486578145264356991734223572653524354660049206311581660438991474758024121521140297297774895679865233876240857588960575004859884415888454358128062 13288892686255875303959900692803541847857188832728530167366222028633524236431143143130705259410641441459772430520746127054290760539436806979861656762130315 (3469596791342625335483983942366675465422141924827371088863948785984830693585254730228468646470563011785863762597111100437752931785214262145468490638306426, 3554400501800450091571601429681464131952273013833968267450297082798409025288300725423347681910765922149016498159865558483065815928938297037853622619794489) = (4098750726815573759291365540897703014630806635225273771457788999221196568272110485471277052914685388930866835302904697871813928309414033510249814133947452, 7474726685723526788772322403150421047316041558190182438850913777261664669465773211832161392260817976691302498243332133718147264804937398024485035060471059) := by decide!

theorem pbkdfChunk28 :
    pbkdfPair 32 10468683842486578145264356991734223572653524354660049206311581660438991474758024121521140297297774895679865233876240857588960575004859884415888454358128062 13288892686255875303959900692803541847857188832728530167366222028633524236431143143130705259410641441459772430520746127054290760539436806979861656762130315 (4098750726815573759291365540897703014630806635225273771457788999221196568272110485471277052914685388930866835302904697871813928309414033510249814133947452, 7474726685723526788772322403150421047316041558190182438850913777261664669465773211832161392260817976691302498243332133718147264804937398024485035060471059) = (2178515697893820114648958000213161483183601235725048230918073080371879449073561203135528084218719104824608669833049674274506744050699048869550522286680398, 6625438195555828053143372328675975925190385845477811704674269187676789537470943659784453683287886769364245085504990508469132191776685766126994409739496834) := by decide!

theorem pbkdfChunk29 :
    pbkdfPair 32 10468683842486578145264356991734223572653524354660049206311581660438991474758024121521140297297774895679865233876240857588960575004859884415888454358128062 13288892686255875303959900692803541847857188832728530167366222028633524236431143143130705259410641441459772430520746127054290760539436806979861656762130315 (2178515697893820114648958000213161483183601235725048230918073080371879449073561203135528084218719104824608669833049674274506744050699048869550522286680398, 6625438195555828053143372328675975925190385845477811704674269187676789537470943659784453683287886769364245085504990508469132191776685766126994409739496834) = (2155952027683813818613670947710745159782761039821162983344149057991383301632286402844833767780670321710698608160756910977034757564968508950644643272761529, 12994942111158671169541549115144001273651082250400184604800142746127843026750044862561070865233359913420181594301305771482054129669514775151325820201420605) := by decide!

theorem pbkdfChunk30 :
    pbkdfPair 32 10468683842486578145264356991734223572653524354660049206311581660438991474758024121521140297297774895679865233876240857588960575004859884415888454358128062 13288892686255875303959900692803541847857188832728530167366222028633524236431143143130705259410641441459772430520746127054290760539436806979861656762130315 (2155952027683813818613670947710745159782761039821162983344149057991383301632286402844833767780670321710698608160756910977034757564968508950644643272761529, 12994942111158671169541549115144001273651082250400184604800142746127843026750044862561070865233359913420181594301305771482054129669514775151325820201420605) = (8748696605017497506655883971566492372233731536037594355978102087494024839171005395703041388634113891446949041977726800109274830382902400891333921657831001, 2681709759087896523223097892938301768110341027906593959276609789390340073441207433553416793819468519949784038900758852381569535058593709592377391497455623) := by decide!

theorem pbkdfChunk31 :
    pbkdfPair 32 10468683842486578145264356991734223572653524354660049206311581660438991474758024121521140297297774895679865233876240857588960575004859884415888454358128062 13288892686255875303959900692803541847857188832728530167366222028633524236431143143130705259410641441459772430520746127054290760539436806979861656762130315 (8748696605017497506655883971566492372233731536037594355978102087494024839171005395703041388634113891446949041977726800109274830382902400891333921657831001, 2681709759087896523223097892938301768110341027906593959276609789390340073441207433553416793819468519949784038900758852381569535058593709592377391497455623) = (10797530121898292960003175344966594831672125838974550295512017159336117046175738947867462394811597887221479328144458698237612137168232676615485023215916825, 12322715523151214851371727323863602234241237871136003464183262099934809628216879733154810449469729779934445471811871900540122632897312877827412628679920577) := by decide!

theorem pbkdfChunk32 :
    pbkdfPair 32 10468683842486578145264356991734223572653524354660049206311581660438991474758024121521140297297774895679865233876240857588960575004859884415888454358128062 13288892686255875303959900692803541847857188832728530167366222028633524236431143143130705259410641441459772430520746127054290760539436806979861656762130315 (10797530121898292960003175344966594831672125838974550295512017159336117046175738947867462394811597887221479328144458698237612137168232676615485023215916825, 12322715523151214851371727323863602234241237871136003464183262099934809628216879733154810449469729779934445471811871900540122632897312877827412628679920577) = (8439765115201144727745144372926314724048773874538473622706619568875141394694954343830741261272780764136927436694884731788587405825363794080256390309497408, 9084815835846749476262908927623041833639073499018463155977257790036598128592085717456001844424926421638757620910292856004433879465407723047737334960681308) := by decide!

theorem pbkdfChunk33 :
    pbkdfPair 32 10468683842486578145264356991734223572653524354660049206311581660438991474758024121521140297297774895679865233876240857588960575004859884415888454358128062 13288892686255875303959900692803541847857188832728530167366222028633524236431143143130705259410641441459772430520746127054290760539436806979861656762130315 (8439765115201144727745144372926314724048773874538473622706619568875141394694954343830741261272780764136927436694884731788587405825363794080256390309497408, 9084815835846749476262908927623041833639073499018463155977257790036598128592085717456001844424926421638757620910292856004433879465407723047737334960681308) = (3703561475465012979333288184790279762718788265798762742995123718954797371250555212988724791926166427113191722422078437977956933437777844362842368303169708, 4467528405692654444207309278876559303217911691467524787668523936339404470764793312054951454866987619560980083420310618121546425695140423173999564908811144) := by decide!

theorem pbkdfChunk34 :
    pbkdfPair 32 10468683842486578145264356991734223572653524354660049206311581660438991474758024121521140297297774895679865233876240857588960575004859884415888454358128062 13288892686255875303959900692803541847857188832728530167366222028633524236431143143130705259410641441459772430520746127054290760539436806979861656762130315 (3703561475465012979333288184790279762718788265798762742995123718954797371250555212988724791926166427113191722422078437977956933437777844362842368303169708, 4467528405692654444207309278876559303217911691467524787668523936339404470764793312054951454866987619560980083420310618121546425695140423173999564908811144) = (1820449640175077778688466159364847927842071973893191029552116061987287227958393253697904075716040909335307482125277653350787901979937167558964859905228705, 3249912627266349304215809405837514369819678601536705255781418127463369804973211109878997064117981766774147545887641939261214044313116471543447214607272684) := by decide!

theorem pbkdfChunk35 :
    pbkdfPair 32 10468683842486578145264356991734223572653524354660049206311581660438991474758024121521140297297774895679865233876240857588960575004859884415888454358128062 13288892686255875303959900692803541847857188832728530167366222028633524236431143143130705259410641441459772430520746127054290760539436806979861656762130315 (1820449640175077778688466159364847927842071973893191029552116061987287227958393253697904075716040909335307482125277653350787901979937167558964859905228705, 3249912627266349304215809405837514369819678601536705255781418127463369804973211109878997064117981766774147545887641939261214044313116471543447214607272684) = (6062432314484857459445836843103093047439139548197081261912376768840359524191465271415218398492029795860011117589765550607022967516613679213907024320789348, 10299899877926194778930738987914948879147752012280681751109022371029192860278543585475769222418562654073615626648717883105981555324100259121907143738733994) := by decide!

theorem pbkdfChunk36 :
    pbkdfPair 32 10468683842486578145264356991734223572653524354660049206311581660438991474758024121521140297297774895679865233876240857588960575004859884415888454358128062 13288892686255875303959900692803541847857188832728530167366222028633524236431143143130705259410641441459772430520746127054290760539436806979861656762130315 (6062432314484857459445836843103093047439139548197081261912376768840359524191465271415218398492029795860011117589765550607022967516613679213907024320789348, 10299899877926194778930738987914948879147752012280681751109022371029192860278543585475769222418562654073615626648717883105981555324100259121907143738733994) = (9095910019049974471073563030229973700381400805654128156749285999537650237517563718907644362016803049554503017149558953195835650645114094267039254642405288, 1549899673405344077091201175595067025609514111992186093317428636914168680309938867635190680418359023424841411565059065210005534763164133899859989410404170) := by decide!

theorem pbkdfChunk37 :
    pbkdfPair 32 10468683842486578145264356991734223572653524354660049206311581660438991474758024121521140297297774895679865233876240857588960575004859884415888454358128062 13288892686255875303959900692803541847857188832728530167366222028633524236431143143130705259410641441459772430520746127054290760539436806979861656762130315 (9095910019049974471073563030229973700381400805654128156749285999537650237517563718907644362016803049554503017149558953195835650645114094267039254642405288, 1549899673405344077091201175595067025609514111992186093317428636914168680309938867635190680418359023424841411565059065210005534763164133899859989410404170) = (3374574166704265793643491384171810768191149790346296059320159820845708345815602423484142709369498345417618008949583097026360588124761001822040957162981721, 7151619467942933233974525996563241680693785614763954313847551024967399980064469293312638868155650646199515074252277881001555594369633334260956253023726635) := by decide!

theorem pbkdfChunk38 :
    pbkdfPair 32 10468683842486578145264356991734223572653524354660049206311581660438991474758024121521140297297774895679865233876240857588960575004859884415888454358128062 13288892686255875303959900692803541847857188832728530167366222028633524236431143143130705259410641441459772430520746127054290760539436806979861656762130315 (3374574166704265793643491384171810768191149790346296059320159820845708345815602423484142709369498345417618008949583097026360588124761001822040957162981721, 7151619467942933233974525996563241680693785614763954313847551024967399980064469293312638868155650646199515074252277881001555594369633334260956253023726635) = (4279704223322178587377393063476903007196072278950355007490456176563303154023415450747614398358766188398501537648013760268150849394599305218830753052166699, 12534179468200081383305639817920060568276622208499880908812976441656446809402009567818094914723125590614143807393821175634535649943846294590137788862127633) := by decide!

theorem pbkdfChunk39 :
    pbkdfPair 32 10468683842486578145264356991734223572653524354660049206311581660438991474758024121521140297297774895679865233876240857588960575004859884415888454358128062 13288892686255875303959900692803541847857188832728530167366222028633524236431143143130705259410641441459772430520746127054290760539436806979861656762130315 (4279704223322178587377393063476903007196072278950355007490456176563303154023415450747614398358766188398501537648013760268150849394599305218830753052166699, 12534179468200081383305639817920060568276622208499880908812976441656446809402009567818094914723125590614143807393821175634535649943846294590137788862127633) = (2563662077158987767181078971693657722053470716265832999848960703138314630146206727632129282896300582027427409708018510257451309476153058370274872272557741, 9382835225145906467737526473499792539988717281762519399404752881547041895507058070050762202051542469332736931362610033737038822671579047749303435285088293) := by decide!

theorem pbkdfChunk40 :
    pbkdfPair 32 10468683842486578145264356991734223572653524354660049206311581660438991474758024121521140297297774895679865233876240857588960575004859884415888454358128062 13288892686255875303959900692803541847857188832728530167366222028633524236431143143130705259410641441459772430520746127054290760539436806979861656762130315 (2563662077158987767181078971693657722053470716265832999848960703138314630146206727632129282896300582027427409708018510257451309476153058370274872272557741, 9382835225145906467737526473499792539988717281762519399404752881547041895507058070050762202051542469332736931362610033737038822671579047749303435285088293) = (5030744371372546216670862249821905730805639484336321855290427250166460546058758857504753021681460324200568719975625448526633743217584701617921042257500513, 10919521314190472081430881608660371581624750833155700837992942466466294874621767514897041374064761199350379010423628632124217538808595028079939076584570487) := by decide!

theorem pbkdfChunk41 :
    pbkdfPair 32 10468683842486578145264356991734223572653524354660049206311581660438991474758024121521140297297774895679865233876240857588960575004859884415888454358128062 13288892686255875303959900692803541847857188832728530167366222028633524236431143143130705259410641441459772430520746127054290760539436806979861656762130315 (5030744371372546216670862249821905730805639484336321855290427250166460546058758857504753021681460324200568719975625448526633743217584701617921042257500513, 10919521314190472081430881608660371581624750833155700837992942466466294874621767514897041374064761199350379010423628632124217538808595028079939076584570487) = (12200101882658938198034744453388102321015434554653325029963793276555678006430891694625069715991967192873461522941133232752293876967410787565030888218080753, 10793435239749795902770297436965345973640358551353445235569180894827630186518864242244171658928024252211797859155725170465607970629561264221651070509391102) := by decide!

theorem pbkdfChunk42 :
    pbkdfPair 32 10468683842486578145264356991734223572653524354660049206311581660438991474758024121521140297297774895679865233876240857588960575004859884415888454358128062 13288892686255875303959900692803541847857188832728530167366222028633524236431143143130705259410641441459772430520746127054290760539436806979861656762130315 (12200101882658938198034744453388102321015434554653325029963793276555678006430891694625069715991967192873461522941133232752293876967410787565030888218080753, 10793435239749795902770297436965345973640358551353445235569180894827630186518864242244171658928024252211797859155725170465607970629561264221651070509391102) = (12366803138912854030879473173118715677311573575951178486696470567425196512702477426166592528292470633591629606025932319566795733558549017862211333003879686, 4733209971548346754952352185713485102448533393636587239993487827282312524743011703604891572730536503498349401297433852884278977595504041162775446820064512) := by decide!

theorem pbkdfChunk43 :
    pbkdfPair 32 10468683842486578145264356991734223572653524354660049206311581660438991474758024121521140297297774895679865233876240857588960575004859884415888454358128062 13288892686255875303959900692803541847857188832728530167366222028633524236431143143130705259410641441459772430520746127054290760539436806979861656762130315 (12366803138912854030879473173118715677311573575951178486696470567425196512702477426166592528292470633591629606025932319566795733558549017862211333003879686, 4733209971548346754952352185713485102448533393636587239993487827282312524743011703604891572730536503498349401297433852884278977595504041162775446820064512) = (7783761197295598330717538069255667900757111494221100805365409717527183527078930439878595677376778576826464616368616110341376440268975966129385925010718081, 6282591004256083780001480507671679049380562375013355509351985124243484041733329534974420204663507602614272975186242373846173943626644729865781741358345784) := by decide!

theorem pbkdfChunk44 :
    pbkdfPair 32 10468683842486578145264356991734223572653524354660049206311581660438991474758024121521140297297774895679865233876240857588960575004859884415888454358128062 13288892686255875303959900692803541847857188832728530167366222028633524236431143143130705259410641441459772430520746127054290760539436806979861656762130315 (7783761197295598330717538069255667900757111494221100805365409717527183527078930439878595677376778576826464616368616110341376440268975966129385925010718081, 6282591004256083780001480507671679049380562375013355509351985124243484041733329534974420204663507602614272975186242373846173943626644729865781741358345784) = (2048595835679977825221645493120906806885603926196420882156203078263897933718746242762961087778853496027329644274879792331594620495657711594547622323883986, 3927499018968551213996427075368276000627443571736655679014106531646355020237335388687464943328661894654043170544906005872293091656952738810448540993870755) := by decide!

theorem pbkdfChunk45 :
    pbkdfPair 32 10468683842486578145264356991734223572653524354660049206311581660438991474758024121521140297297774895679865233876240857588960575004859884415888454358128062 13288892686255875303959900692803541847857188832728530167366222028633524236431143143130705259410641441459772430520746127054290760539436806979861656762130315 (2048595835679977825221645493120906806885603926196420882156203078263897933718746242762961087778853496027329644274879792331594620495657711594547622323883986, 3927499018968551213996427075368276000627443571736655679014106531646355020237335388687464943328661894654043170544906005872293091656952738810448540993870755) = (12074409294026096859084915061122926576440555087506733407341701839646611146247982325812491061726018910923065280465668140660042421981458882144546817352643684, 13129453324025101874730290601923976466782285038944640095400046246114466179723227252317878972781761896785003855126198384679202220106624508407818711412201031) := by decide!

theorem pbkdfChunk46 :
    pbkdfPair 32 10468683842486578145264356991734223572653524354660049206311581660438991474758024121521140297297774895679865233876240857588960575004859884415888454358128062 13288892686255875303959900692803541847857188832728530167366222028633524236431143143130705259410641441459772430520746127054290760539436806979861656762130315 (12074409294026096859084915061122926576440555087506733407341701839646611146247982325812491061726018910923065280465668140660042421981458882144546817352643684, 13129453324025101874730290601923976466782285038944640095400046246114466179723227252317878972781761896785003855126198384679202220106624508407818711412201031) = (10779009762977919324171227076738071336418716507615651538440087896335167009540930818456326965367168380481967447597599068809665247668287837720553188735663367, 7517932370585032863650815402826110750703449555639439120490952485377127566023840526198167343523749768939531873794702006179032393231980098907508763358094055) := by decide!

theorem pbkdfChunk47 :
    pbkdfPair 32 10468683842486578145264356991734223572653524354660049206311581660438991474758024121521140297297774895679865233876240857588960575004859884415888454358128062 13288892686255875303959900692803541847857188832728530167366222028633524236431143143130705259410641441459772430520746127054290760539436806979861656762130315 (10779009762977919324171227076738071336418716507615651538440087896335167009540930818456326965367168380481967447597599068809665247668287837720553188735663367, 7517932370585032863650815402826110750703449555639439120490952485377127566023840526198167343523749768939531873794702006179032393231980098907508763358094055) = (6002588845652985603223734134502663730377076895340901152299751963167460107217737845700510382601458055595350570603615463720937127181267416614233715500894052, 8574807812921209047182670061398418822769777474719211207173971607935798666967580908477507632630788323695176785028087427224989887204479430657961607215320544) := by decide!

theorem pbkdfChunk48 :
    pbkdfPair 32 10468683842486578145264356991734223572653524354660049206311581660438991474758024121521140297297774895679865233876240857588960575004859884415888454358128062 13288892686255875303959900692803541847857188832728530167366222028633524236431143143130705259410641441459772430520746127054290760539436806979861656762130315 (6002588845652985603223734134502663730377076895340901152299751963167460107217737845700510382601458055595350570603615463720937127181267416614233715500894052, 8574807812921209047182670061398418822769777474719211207173971607935798666967580908477507632630788323695176785028087427224989887204479430657961607215320544) = (6737444992791338793443895949950174028535436291191941530157055090803125194930622284389671094025071014743057747385080062642911464451087172889686219043123522, 5090574001139730879329103364643495113781117727385067108100905715884379834007862830317262215912813000934646414052030909145775204276368404657777558168064142) := by decide!

theorem pbkdfChunk49 :
    pbkdfPair 32 10468683842486578145264356991734223572653524354660049206311581660438991474758024121521140297297774895679865233876240857588960575004859884415888454358128062 13288892686255875303959900692803541847857188832728530167366222028633524236431143143130705259410641441459772430520746127054290760539436806979861656762130315 (6737444992791338793443895949950174028535436291191941530157055090803125194930622284389671094025071014743057747385080062642911464451087172889686219043123522, 5090574001139730879329103364643495113781117727385067108100905715884379834007862830317262215912813000934646414052030909145775204276368404657777558168064142) = (1998373748252738608893930552327061424861758064932719484584396178743154478339061252641219836159036390630325573163880924959020585865263732707346835154341707, 8109245887696372893532048168511556714525122629829646223687691056685823193224257162342887781434136599772803330850591460636258331595928068119358671496837322) := by decide!

theorem pbkdfChunk50 :
    pbkdfPair 32 10468683842486578145264356991734223572653524354660049206311581660438991474758024121521140297297774895679865233876240857588960575004859884415888454358128062 13288892686255875303959900692803541847857188832728530167366222028633524236431143143130705259410641441459772430520746127054290760539436806979861656762130315 (1998373748252738608893930552327061424861758064932719484584396178743154478339061252641219836159036390630325573163880924959020585865263732707346835154341707, 8109245887696372893532048168511556714525122629829646223687691056685823193224257162342887781434136599772803330850591460636258331595928068119358671496837322) = (10806950166722530133012438216709441852611346711162234608512330785468501693233131960573290863731492217807835278932967000450670987498806864383321740077786781, 12181489593011584848437984045173987004010395603708898776213557392245061304406128670493586492675984304285621932102190397072080494182078755042160434292964898) := by decide!

theorem pbkdfChunk51 :
    pbkdfPair 32 10468683842486578145264356991734223572653524354660049206311581660438991474758024121521140297297774895679865233876240857588960575004859884415888454358128062 13288892686255875303959900692803541847857188832728530167366222028633524236431143143130705259410641441459772430520746127054290760539436806979861656762130315 (10806950166722530133012438216709441852611346711162234608512330785468501693233131960573290863731492217807835278932967000450670987498806864383321740077786781, 12181489593011584848437984045173987004010395603708898776213557392245061304406128670493586492675984304285621932102190397072080494182078755042160434292964898) = (10758358148003071353592945214171557420184833507956513421520684346190583920368329268758262536355903810493797305166605813224173800325324426551989918793067404, 4401006490875175226688534056901675777337190283929108838289300901785795187056498961011844066467749564635920735266918380201718558212536099330056545228495191) := by decide!

theorem pbkdfChunk52 :
    pbkdfPair 32 10468683842486578145264356991734223572653524354660049206311581660438991474758024121521140297297774895679865233876240857588960575004859884415888454358128062 13288892686255875303959900692803541847857188832728530167366222028633524236431143143130705259410641441459772430520746127054290760539436806979861656762130315 (10758358148003071353592945214171557420184833507956513421520684346190583920368329268758262536355903810493797305166605813224173800325324426551989918793067404, 4401006490875175226688534056901675777337190283929108838289300901785795187056498961011844066467749564635920735266918380201718558212536099330056545228495191) = (5639658055762162953683629212560356189500302176873596861575123484769159530356102279812982115202721393911633993764417513933883576512518840896958339983644908, 10682520826283747258986209631190713311021882568374994799766501168993812768375624681440448814124539340044182908690500616248270453179535374223610330629268769) := by decide!

theorem pbkdfChunk53 :
    pbkdfPair 32 10468683842486578145264356991734223572653524354660049206311581660438991474758024121521140297297774895679865233876240857588960575004859884415888454358128062 13288892686255875303959900692803541847857188832728530167366222028633524236431143143130705259410641441459772430520746127054290760539436806979861656762130315 (5639658055762162953683629212560356189500302176873596861575123484769159530356102279812982115202721393911633993764417513933883576512518840896958339983644908, 10682520826283747258986209631190713311021882568374994799766501168993812768375624681440448814124539340044182908690500616248270453179535374223610330629268769) = (4520557771637540566991172566773093305377845634966140755154485489292274711835087366030674596360167646283154331546652869905583524506513908293124680838189943, 2899771207580678242991081143369197222832622968722165842784604113773639143034597993064091186831551932728932072762920041500800167661742988867807878077362719) := by decide!

theorem pbkdfChunk54 :
    pbkdfPair 32 10468683842486578145264356991734223572653524354660049206311581660438991474758024121521140297297774895679865233876240857588960575004859884415888454358128062 13288892686255875303959900692803541847857188832728530167366222028633524236431143143130705259410641441459772430520746127054290760539436806979861656762130315 (4520557771637540566991172566773093305377845634966140755154485489292274711835087366030674596360167646283154331546652869905583524506513908293124680838189943, 2899771207580678242991081143369197222832622968722165842784604113773639143034597993064091186831551932728932072762920041500800167661742988867807878077362719) = (444895029524989323530980912252408625145887045289333273506546131292836884923347423366409189696417984579312546921147425001051267469079583083259662090008460, 5224279386817622251184853711066909692555026174128987412232393440004328965126324560179425361207951209667788169329209789911060008040388470608463013381596751) := by decide!

theorem pbkdfChunk55 :
    pbkdfPair 32 10468683842486578145264356991734223572653524354660049206311581660438991474758024121521140297297774895679865233876240857588960575004859884415888454358128062 13288892686255875303959900692803541847857188832728530167366222028633524236431143143130705259410641441459772430520746127054290760539436806979861656762130315 (444895029524989323530980912252408625145887045289333273506546131292836884923347423366409189696417984579312546921147425001051267469079583083259662090008460, 5224279386817622251184853711066909692555026174128987412232393440004328965126324560179425361207951209667788169329209789911060008040388470608463013381596751) = (6258413550937164003147273981135886463271041941241815864679741200581979656650767993604947315306568134226219942615461353948101503087845338005695325830309618, 5572003760560912435197968425491499702613373396342091731554144368607433760959427886876124082303324426787890197251225032511070546406664101714488233663520344) := by decide!

theorem pbkdfChunk56 :
    pbkdfPair 32 10468683842486578145264356991734223572653524354660049206311581660438991474758024121521140297297774895679865233876240857588960575004859884415888454358128062 13288892686255875303959900692803541847857188832728530167366222028633524236431143143130705259410641441459772430520746127054290760539436806979861656762130315 (6258413550937164003147273981135886463271041941241815864679741200581979656650767993604947315306568134226219942615461353948101503087845338005695325830309618, 5572003760560912435197968425491499702613373396342091731554144368607433760959427886876124082303324426787890197251225032511070546406664101714488233663520344) = (4008537763946317645610072037846137925780490510741594192138962148626867689461037656846411890136591619932265815384302096237062820667030354164672964735445789, 1373315006990329747549059919721346729714114319070761839157959845721432159331158306043178064129718710484956565819212239210066527605179393867809941870979427) := by decide!

theorem pbkdfChunk57 :
    pbkdfPair 32 10468683842486578145264356991734223572653524354660049206311581660438991474758024121521140297297774895679865233876240857588960575004859884415888454358128062 13288892686255875303959900692803541847857188832728530167366222028633524236431143143130705259410641441459772430520746127054290760539436806979861656762130315 (4008537763946317645610072037846137925780490510741594192138962148626867689461037656846411890136591619932265815384302096237062820667030354164672964735445789, 1373315006990329747549059919721346729714114319070761839157959845721432159331158306043178064129718710484956565819212239210066527605179393867809941870979427) = (350837997647249904759168723728916302860077614727614343551540087993753410114600448609624831399644681078084989945237018580191338159209320649224766273548472, 4273107616080529175539043168858257956230879585352880560096136867798553805635361687229494042373961721903979448909816706274260141304719554969505732227345826) := by decide!

theorem pbkdfChunk58 :
    pbkdfPair 32 10468683842486578145264356991734223572653524354660049206311581660438991474758024121521140297297774895679865233876240857588960575004859884415888454358128062 13288892686255875303959900692803541847857188832728530167366222028633524236431143143130705259410641441459772430520746127054290760539436806979861656762130315 (350837997647249904759168723728916302860077614727614343551540087993753410114600448609624831399644681078084989945237018580191338159209320649224766273548472, 4273107616080529175539043168858257956230879585352880560096136867798553805635361687229494042373961721903979448909816706274260141304719554969505732227345826) = (6317726451999993004519848483446582139073052006874059000986765036695281606111969375035986886100090743105308077354664160313557741126303420733799657699154028, 1479764760279099919241159280752440418948683855196880519114945998831012901874397985114036502637396018896258004847045592137185129473627682164650267630996239) := by decide!

theorem pbkdfChunk59 :
    pbkdfPair 32 10468683842486578145264356991734223572653524354660049206311581660438991474758024121521140297297774895679865233876240857588960575004859884415888454358128062 13288892686255875303959900692803541847857188832728530167366222028633524236431143143130705259410641441459772430520746127054290760539436806979861656762130315 (6317726451999993004519848483446582139073052006874059000986765036695281606111969375035986886100090743105308077354664160313557741126303420733799657699154028, 1479764760279099919241159280752440418948683855196880519114945998831012901874397985114036502637396018896258004847045592137185129473627682164650267630996239) = (4150227055170423210889790589535529590991586799916158200461285463265015199644878152392857505530223288550789206971369757926938963016644410023234569148221592, 520692630538436390393631376058403904646625328501551433205683894656303610512072636204952919155351171254027175170733823045624575991417189218572390888398657) := by decide!

theorem pbkdfChunk60 :
    pbkdfPair 32 10468683842486578145264356991734223572653524354660049206311581660438991474758024121521140297297774895679865233876240857588960575004859884415888454358128062 13288892686255875303959900692803541847857188832728530167366222028633524236431143143130705259410641441459772430520746127054290760539436806979861656762130315 (4150227055170423210889790589535529590991586799916158200461285463265015199644878152392857505530223288550789206971369757926938963016644410023234569148221592, 520692630538436390393631376058403904646625328501551433205683894656303610512072636204952919155351171254027175170733823045624575991417189218572390888398657) = (10853374798449660077874744626398340850151063404033548399020431699915082410011052004033845777114714423116355823938782976037713857932801287750420417309782417, 3167468218636314938162253327699549264040415265358686066153177169577391624514606783060048779288822363947153565687525233219322607392124124535594480336097727) := by decide!

theorem pbkdfChunk61 :
    pbkdfPair 32 10468683842486578145264356991734223572653524354660049206311581660438991474758024121521140297297774895679865233876240857588960575004859884415888454358128062 13288892686255875303959900692803541847857188832728530167366222028633524236431143143130705259410641441459772430520746127054290760539436806979861656762130315 (10853374798449660077874744626398340850151063404033548399020431699915082410011052004033845777114714423116355823938782976037713857932801287750420417309782417, 3167468218636314938162253327699549264040415265358686066153177169577391624514606783060048779288822363947153565687525233219322607392124124535594480336097727) = (13038621189149789052867189862358023814483300550324590506107682387818990832485979335454409678333328419520636956112107323546851075598369864043665247016725227, 12301678745481117733616309838832986824159201488358468380052301927558768145231924111826040000042874410538563235851899046098347880575844789045383868238586041) := by decide!

theorem pbkdfChunk62 :
    pbkdfPair 32 10468683842486578145264356991734223572653524354660049206311581660438991474758024121521140297297774895679865233876240857588960575004859884415888454358128062 13288892686255875303959900692803541847857188832728530167366222028633524236431143143130705259410641441459772430520746127054290760539436806979861656762130315 (13038621189149789052867189862358023814483300550324590506107682387818990832485979335454409678333328419520636956112107323546851075598369864043665247016725227, 12301678745481117733616309838832986824159201488358468380052301927558768145231924111826040000042874410538563235851899046098347880575844789045383868238586041) = (3499010652772983357317748806683545821110924254075145220454324839441842073466139402917683008720671447473153844838236036003042793653869448674665758645127709, 2934787511639422387924685463172055023460975109755762219194968796655985395530797472645799180558581607092840261545861538782488851366580514469661774065843572) := by decide!

theorem pbkdfChunk63 :
    pbkdfPair 31 10468683842486578145264356991734223572653524354660049206311581660438991474758024121521140297297774895679865233876240857588960575004859884415888454358128062 13288892686255875303959900692803541847857188832728530167366222028633524236431143143130705259410641441459772430520746127054290760539436806979861656762130315 (3499010652772983357317748806683545821110924254075145220454324839441842073466139402917683008720671447473153844838236036003042793653869448674665758645127709, 2934787511639422387924685463172055023460975109755762219194968796655985395530797472645799180558581607092840261545861538782488851366580514469661774065843572) = (9129053005738634096959662091295068505804389711991971353914969283530667956374043106188389451048893718619720213590061451356741117587685176157147221034691976, 4959196154511253021132517352371015450761028935263166299346430197451601546737797461226065896555066272632852869173503262500053017770963374666301121100658916) := by decide!

theorem pbkdfPairEval :
    pbkdfPair 2047 10468683842486578145264356991734223572653524354660049206311581660438991474758024121521140297297774895679865233876240857588960575004859884415888454358128062 13288892686255875303959900692803541847857188832728530167366222028633524236431143143130705259410641441459772430520746127054290760539436806979861656762130315 (5281647394817207772940303989511398945426893379361828068487779081461910995983955259522149717436805822879914698364697185480759068547217089903725453340453687, 5281647394817207772940303989511398945426893379361828068487779081461910995983955259522149717436805822879914698364697185480759068547217089903725453340453687) = (9129053005738634096959662091295068505804389711991971353914969283530667956374043106188389451048893718619720213590061451356741117587685176157147221034691976, 4959196154511253021132517352371015450761028935263166299346430197451601546737797461226065896555066272632852869173503262500053017770963374666301121100658916) := by
  rw [show (2047 : Nat) = 32 + 2015 from rfl, pbkdfPair_add, pbkdfChunk0]
  rw [show (2015 : Nat) = 32 + 1983 from rfl, pbkdfPair_add, pbkdfChunk1]
  rw [show (1983 : Nat) = 32 + 1951 from rfl, pbkdfPair_add, pbkdfChunk2]
  rw [show (1951 : Nat) = 32 + 1919 from rfl, pbkdfPair_add, pbkdfChunk3]
  rw [show (1919 : Nat) = 32 + 1887 from rfl, pbkdfPair_add, pbkdfChunk4]
  rw [show (1887 : Nat) = 32 + 1855 from rfl, pbkdfPair_add, pbkdfChunk5]
  rw [show (1855 : Nat) = 32 + 1823 from rfl, pbkdfPair_add, pbkdfChunk6]
  rw [show (1823 : Nat) = 32 + 1791 from rfl, pbkdfPair_add, pbkdfChunk7]
  rw [show (1791 : Nat) = 32 + 1759 from rfl, pbkdfPair_add, pbkdfChunk8]
  rw [show (1759 : Nat) = 32 + 1727 from rfl, pbkdfPair_add, pbkdfChunk9]
  rw [show (1727 : Nat) = 32 + 1695 from rfl, pbkdfPair_add, pbkdfChunk10]
  rw [show (1695 : Nat) = 32 + 1663 from rfl, pbkdfPair_add, pbkdfChunk11]
  rw [show (1663 : Nat) = 32 + 1631 from rfl, pbkdfPair_add, pbkdfChunk12]
  rw [show (1631 : Nat) = 32 + 1599 from rfl, pbkdfPair_add, pbkdfChunk13]
  rw [show (1599 : Nat) = 32 + 1567 from rfl, pbkdfPair_add, pbkdfChunk14]
  rw [show (1567 : Nat) = 32 + 1535 from rfl, pbkdfPair_add, pbkdfChunk15]
  rw [show (1535 : Nat) = 32 + 1503 from rfl, pbkdfPair_add, pbkdfChunk16]
  rw [show (1503 : Nat) = 32 + 1471 from rfl, pbkdfPair_add, pbkdfChunk17]
  rw [show (1471 : Nat) = 32 + 1439 from rfl, pbkdfPair_add, pbkdfChunk18]
  rw [show (1439 : Nat) = 32 + 1407 from rfl, pbkdfPair_add, pbkdfChunk19]
  rw [show (1407 : Nat) = 32 + 1375 from rfl, pbkdfPair_add, pbkdfChunk20]
  rw [show (1375 : Nat) = 32 + 1343 from rfl, pbkdfPair_add, pbkdfChunk21]
  rw [show (1343 : Nat) = 32 + 1311 from rfl, pbkdfPair_add, pbkdfChunk22]
  rw [show (1311 : Nat) = 32 + 1279 from rfl, pbkdfPair_add, pbkdfChunk23]
  rw [show (1279 : Nat) = 32 + 1247 from rfl, pbkdfPair_add, pbkdfChunk24]
  rw [show (1247 : Nat) = 32 + 1215 from rfl, pbkdfPair_add, pbkdfChunk25]
  rw [show (1215 : Nat) = 32 + 1183 from rfl, pbkdfPair_add, pbkdfChunk26]
  rw [show (1183 : Nat) = 32 + 1151 from rfl, pbkdfPair_add, pbkdfChunk27]
  rw [show (1151 : Nat) = 32 + 1119 from rfl, pbkdfPair_add, pbkdfChunk28]
  rw [show (1119 : Nat) = 32 + 1087 from rfl, pbkdfPair_add, pbkdfChunk29]
  rw [show (1087 : Nat) = 32 + 1055 from rfl, pbkdfPair_add, pbkdfChunk30]
  rw [show (1055 : Nat) = 32 + 1023 from rfl, pbkdfPair_add, pbkdfChunk31]
  rw [show (1023 : Nat) = 32 + 991 from rfl, pbkdfPair_add, pbkdfChunk32]
  rw [show (991 : Nat) = 32 + 959 from rfl, pbkdfPair_add, pbkdfChunk33]
  rw [show (959 : Nat) = 32 + 927 from rfl, pbkdfPair_add, pbkdfChunk34]
  rw [show (927 : Nat) = 32 + 895 from rfl, pbkdfPair_add, pbkdfChunk35]
  rw [show (895 : Nat) = 32 + 863 from rfl, pbkdfPair_add, pbkdfChunk36]
  rw [show (863 : Nat) = 32 + 831 from rfl, pbkdfPair_add, pbkdfChunk37]
  rw [show (831 : Nat) = 32 + 799 from rfl, pbkdfPair_add, pbkdfChunk38]
  rw [show (799 : Nat) = 32 + 767 from rfl, pbkdfPair_add, pbkdfChunk39]
  rw [show (767 : Nat) = 32 + 735 from rfl, pbkdfPair_add, pbkdfChunk40]
  rw [show (735 : Nat) = 32 + 703 from rfl, pbkdfPair_add, pbkdfChunk41]
  rw [show (703 : Nat) = 32 + 671 from rfl, pbkdfPair_add, pbkdfChunk42]
  rw [show (671 : Nat) = 32 + 639 from rfl, pbkdfPair_add, pbkdfChunk43]
  rw [show (639 : Nat) = 32 + 607 from rfl, pbkdfPair_add, pbkdfChunk44]
  rw [show (607 : Nat) = 32 + 575 from rfl, pbkdfPair_add, pbkdfChunk45]
  rw [show (575 : Nat) = 32 + 543 from rfl, pbkdfPair_add, pbkdfChunk46]
  rw [show (543 : Nat) = 32 + 511 from rfl, pbkdfPair_add, pbkdfChunk47]
  rw [show (511 : Nat) = 32 + 479 from rfl, pbkdfPair_add, pbkdfChunk48]
  rw [show (479 : Nat) = 32 + 447 from rfl, pbkdfPair_add, pbkdfChunk49]
  rw [show (447 : Nat) = 32 + 415 from rfl, pbkdfPair_add, pbkdfChunk50]
  rw [show (415 : Nat) = 32 + 383 from rfl, pbkdfPair_add, pbkdfChunk51]
  rw [show (383 : Nat) = 32 + 351 from rfl, pbkdfPair_add, pbkdfChunk52]
  rw [show (351 : Nat) = 32 + 319 from rfl, pbkdfPair_add, pbkdfChunk53]
  rw [show (319 : Nat) = 32 + 287 from rfl, pbkdfPair_add, pbkdfChunk54]
  rw [show (287 : Nat) = 32 + 255 from rfl, pbkdfPair_add, pbkdfChunk55]
  rw [show (255 : Nat) = 32 + 223 from rfl, pbkdfPair_add, pbkdfChunk56]
  rw [show (223 : Nat) = 32 + 191 from rfl, pbkdfPair_add, pbkdfChunk57]
  rw [show (191 : Nat) = 32 + 159 from rfl, pbkdfPair_add, pbkdfChunk58]
  rw [show (159 : Nat) = 32 + 127 from rfl, pbkdfPair_add, pbkdfChunk59]
  rw [show (127 : Nat) = 32 + 95 from rfl, pbkdfPair_add, pbkdfChunk60]
  rw [show (95 : Nat) = 32 + 63 from rfl, pbkdfPair_add, pbkdfChunk61]
  rw [show (63 : Nat) = 32 + 31 from rfl, pbkdfPair_add, pbkdfChunk62]
  exact pbkdfChunk63

theorem ist_c1 : istOf (c1Mnemonic.data.map Char.toNat) = 10468683842486578145264356991734223572653524354660049206311581660438991474758024121521140297297774895679865233876240857588960575004859884415888454358128062 := by decide!

theorem ost_c1 : ostOf (c1Mnemonic.data.map Char.toNat) = 13288892686255875303959900692803541847857188832728530167366222028633524236431143143130705259410641441459772430520746127054290760539436806979861656762130315 := by decide!

theorem u1_c1 :
    u1Of (c1Mnemonic.data.map Char.toNat) (("mnemonic").data.map Char.toNat) = 5281647394817207772940303989511398945426893379361828068487779081461910995983955259522149717436805822879914698364697185480759068547217089903725453340453687 := by
  decide!

/-- the BIP39 seed of the C1 test vector, computed through the chunked
PBKDF2 evaluation -/
theorem seed_c1 : realMnemonicToSeed c1Mnemonic = c1Seed := by
  unfold realMnemonicToSeed pbkdf2HmacSha512
  rw [ist_c1, ost_c1, u1_c1, show (2048 - 1 : Nat) = 2047 from rfl,
    pbkdfGo_pair, pbkdfPairEval]
  decide!


def c1EvmPath : String := "m/44" ++ apo ++ "/60" ++ apo ++ "/0" ++ apo ++ "/0/0"

def c1StacksPath : String := "m/44" ++ apo ++ "/5757" ++ apo ++ "/0" ++ apo ++ "/0/0"

theorem hd_c1 : (realHdDerivePath c1Seed c1EvmPath).map Wallet.address =
    Except.ok "0x9858EfFD232B4033E47d90003D41EC34EcaEda94" := by decide!

/-- the library record with the real spec-modelled implementations of the
three entry points the C1 scenario exercises: `bip39.mnemonicToSeedSync`
and the ethers `HDNodeWallet` secp256k1 path derivation (the validator
accepts the test mnemonic; the other fields keep the abstract sample
implementations, which the C1 statement never inspects). -/
def realLibs : Libs :=
  { sampleLibs with
    validateMnemonic := fun m => m == c1Mnemonic
    mnemonicToSeedSync := realMnemonicToSeed
    hdDerivePath := realHdDerivePath }

/-- the expected C1 address -/
def c1Address : String := "0x9858EfFD232B4033E47d90003D41EC34EcaEda94"

/-- C1: for the standard all-zero-entropy test mnemonic and count 1, the EVM
family walks exactly the single path m/44'/60'/0'/0/0, the real derivation
chain (BIP39 PBKDF2-HMAC-SHA512 seed, BIP32 over secp256k1, keccak256-based
EIP-55 encoding) maps it to 0x9858EfFD232B4033E47d90003D41EC34EcaEda94, and
deriveAddresses returns exactly that one address for the evm family. -/
theorem deriveAddresses_c1_vector :
    candPaths DERIVATION_PATHS.evm 1 = [c1EvmPath] ∧
    (realHdDerivePath (realMnemonicToSeed c1Mnemonic) c1EvmPath).map Wallet.address =
      Except.ok c1Address ∧
    (deriveAddresses realLibs c1Mnemonic 1).map (fun r => r.lookup "evm") =
      Except.ok (some [c1Address]) := by
  refine ⟨by decide, ?_, ?_⟩
  · rw [seed_c1]
    exact hd_c1
  · have hm : realLibs.mnemonicToSeedSync c1Mnemonic = c1Seed := seed_c1
    have hevm : deriveEVMAddresses realLibs c1Seed 1 = Except.ok [c1Address] := by
      decide!
    have hstx : deriveStacksAddresses realLibs c1Seed 1 =
        Except.ok ["SPDc300b9Db5FaACF0F456cAf01110c77e70dcA89E"] := by
      decide!
    have hv : realLibs.validateMnemonic c1Mnemonic = true := by decide
    have hok := deriveAddresses_ok_iff.mpr
      ⟨hv, [c1Address], ["SPDc300b9Db5FaACF0F456cAf01110c77e70dcA89E"],
        by rw [hm]; exact hevm, by rw [hm]; exact hstx, rfl⟩
    rw [hok]
    rfl

end Derivation
